import Mathlib

/-!
Shallow embedding of the trade lifecycle engines of the
PolymarketBTC15mAssistant repository.

Two variants are modelled, following the source closely:

* the simulated ("paper") engine of `src/engines/paperTrader.js`
  (`settleTrade`, `enterTrade`, `getEffectivePositionPct`,
  `adjustLearning`, `processTick`);
* the real ("real") engine of the realTrader module
  (`settleTrade`, `enterTrade`, `getEffectiveMaxSpend`, `canTrade`,
  `checkDailyReset`, `processRealTick`, `killSwitch`,
  `confirmRealSession`).

JavaScript numbers are modelled as rationals (the engine only uses
`+ - * / min max pow floor abs` on them); `null`/`undefined` fields are
modelled as `Option`; the module-level mutable variables of the real
engine (`sessionConfirmed`, `halted`, `haltReason`) and the readiness of
the external CLOB collaborator are bundled into the explicit state
record.  External effects (order placement, current date) are passed in
as explicit parameters.  Pure logging, journaling and the learning-cache
recomputation are omitted: they never feed back into the modelled state
fields.
-/

namespace PolyBtc

/-- Side of an open trade: the string `'UP'` / `'DOWN'` of the source. -/
inductive Side
  | UP
  | DOWN
deriving DecidableEq

/-- Direction reported by the AI analysis (any string other than
`'UP'`/`'DOWN'`, e.g. `'UNKNOWN'`, is modelled by `UNKNOWN`). -/
inductive Direction
  | UP
  | DOWN
  | UNKNOWN
deriving DecidableEq

/-- Settlement outcome; the source's `'UNKNOWN'` is the spec's VOID. -/
inductive Outcome
  | WIN
  | LOSS
  | UNKNOWN
deriving DecidableEq

/-! ## Paper trader: data model -/

/-- `config.martingale` of paperTrader.js (`DEFAULT_CONFIG.martingale`). -/
structure MgConfig where
  enabled : Bool
  multiplier : ℚ
  maxLevel : ℕ
  maxPositionPct : ℚ
deriving DecidableEq

/-- `config` of paperTrader.js (`DEFAULT_CONFIG`). -/
structure PaperConfig where
  initialBalance : ℚ
  positionSizePct : ℚ
  minAiConfidence : ℚ
  minEntryTimeLeft : ℚ
  maxEntryTimeLeft : ℚ
  learningWindow : ℕ
  maxDrawdownHalt : ℚ
  martingale : MgConfig
deriving DecidableEq

/-- `state.currentTrade` of paperTrader.js (behaviour-relevant fields;
the opaque reasoning/snapshot/prediction payloads are omitted). -/
structure Trade where
  side : Side
  entryPrice : ℚ
  shares : ℚ
  cost : ℚ
  marketSlug : String
  aiConfidence : ℚ
  timeLeftAtEntry : Option ℚ
  martingaleLevel : ℕ
  positionSizePct : ℚ
deriving DecidableEq

/-- An element of `state.history`: the trade spread together with
`outcome`, `pnl` and `balanceAfter` (paperTrader.js `settleTrade`). -/
structure SettledTrade where
  trade : Trade
  outcome : Outcome
  pnl : ℚ
  balanceAfter : ℚ
deriving DecidableEq

/-- `state.stats` of paperTrader.js. -/
structure Stats where
  totalTrades : ℕ
  wins : ℕ
  losses : ℕ
  totalPnl : ℚ
  peakBalance : ℚ
  streak : ℤ
deriving DecidableEq

/-- The paper engine state (paperTrader.js module `state`). -/
structure PaperState where
  config : PaperConfig
  balance : ℚ
  currentTrade : Option Trade
  lastSettledSlug : Option String
  lastPtbDelta : Option ℚ
  martingaleLevel : ℕ
  history : List SettledTrade
  stats : Stats
deriving DecidableEq

/-! ## Paper trader: operations -/

/-- `t.outcome === 'WIN' || t.outcome === 'LOSS'` (a settled, non-void
trade), used by `adjustLearning`'s filter. -/
def isDecided (t : SettledTrade) : Bool :=
  t.outcome == Outcome.WIN || t.outcome == Outcome.LOSS

/-- JavaScript `arr.slice(-n)`: the last `n` elements, the whole list
when `n = 0` (since `slice(-0)` is `slice(0)`) or `n ≥ length`. -/
def sliceLast (n : ℕ) (l : List SettledTrade) : List SettledTrade :=
  if n = 0 then l else l.drop (l.length - n)

/-- `adjustLearning` of paperTrader.js: adaptive confidence-threshold
controller run after every settlement. -/
def adjustLearning (s : PaperState) : PaperState :=
  let recent := (sliceLast s.config.learningWindow s.history).filter isDecided
  if recent.length < 5 then s
  else
    let wins := (recent.filter (fun t => t.outcome == Outcome.WIN)).length
    let winRate : ℚ := (wins : ℚ) / (recent.length : ℚ)
    let old := s.config.minAiConfidence
    let adjusted : ℚ :=
      if winRate < 3/10 then min 92 (old + 8)
      else if winRate < 2/5 then min 90 (old + 5)
      else if winRate < 1/2 then min 88 (old + 3)
      else if winRate > 13/20 then max 65 (old - 2)
      else old
    { s with config := { s.config with minAiConfidence := max adjusted 65 } }

/-- `settleTrade` of paperTrader.js: realize P&L, append the settled
trade to history, update stats and the martingale level, clear the open
trade, then run the adaptive controller. -/
def settleTrade (s : PaperState) (outcome : Outcome) : PaperState :=
  match s.currentTrade with
  | none => s
  | some trade =>
    let pnl : ℚ :=
      match outcome with
      | Outcome.WIN => trade.shares * 1 - trade.cost
      | Outcome.LOSS => - trade.cost
      | Outcome.UNKNOWN => 0
    let balance : ℚ :=
      match outcome with
      | Outcome.WIN => s.balance + trade.shares * 1
      | Outcome.LOSS => s.balance
      | Outcome.UNKNOWN => s.balance + trade.cost
    let settled : SettledTrade :=
      { trade := trade, outcome := outcome, pnl := pnl, balanceAfter := balance }
    let stats : Stats :=
      if outcome = Outcome.UNKNOWN then s.stats
      else
        { totalTrades := s.stats.totalTrades + 1
          wins := if outcome = Outcome.WIN then s.stats.wins + 1 else s.stats.wins
          losses := if outcome = Outcome.WIN then s.stats.losses else s.stats.losses + 1
          streak :=
            if outcome = Outcome.WIN then
              (if s.stats.streak ≥ 0 then s.stats.streak + 1 else 1)
            else
              (if s.stats.streak ≤ 0 then s.stats.streak - 1 else -1)
          totalPnl := s.stats.totalPnl + pnl
          peakBalance := max s.stats.peakBalance balance }
    let level : ℕ :=
      if outcome = Outcome.UNKNOWN then s.martingaleLevel
      else if outcome = Outcome.WIN then 0
      else if s.config.martingale.enabled then
        min (s.martingaleLevel + 1) s.config.martingale.maxLevel
      else s.martingaleLevel
    adjustLearning
      { s with balance := balance, history := s.history ++ [settled],
               stats := stats, martingaleLevel := level, currentTrade := none }

/-- The settled-trade record `settleTrade` appends to the history for
an open trade `t` and outcome `o`. -/
def settledRecord (s : PaperState) (t : Trade) (o : Outcome) : SettledTrade :=
  { trade := t,
    outcome := o,
    pnl :=
      match o with
      | Outcome.WIN => t.shares * 1 - t.cost
      | Outcome.LOSS => - t.cost
      | Outcome.UNKNOWN => 0,
    balanceAfter :=
      match o with
      | Outcome.WIN => s.balance + t.shares * 1
      | Outcome.LOSS => s.balance
      | Outcome.UNKNOWN => s.balance + t.cost }

/-- `getEffectivePositionPct` of paperTrader.js. -/
def getEffectivePositionPct (s : PaperState) : ℚ :=
  let base := s.config.positionSizePct
  if s.config.martingale.enabled then
    min (base * s.config.martingale.multiplier ^
          (min s.martingaleLevel s.config.martingale.maxLevel))
        s.config.martingale.maxPositionPct
  else base

/-- The behaviour-relevant part of the `data` record handed to the paper
`enterTrade`. -/
structure EntryData where
  marketSlug : String
  aiConfidence : ℚ
  timeLeft : Option ℚ
deriving DecidableEq

/-- `enterTrade` of paperTrader.js. -/
def enterTrade (s : PaperState) (side : Side) (price : ℚ) (d : EntryData) :
    PaperState :=
  if s.currentTrade.isSome ∨ price ≤ 0 ∨ 1 ≤ price then s
  else
    let sizePct := getEffectivePositionPct s
    let maxSpend := s.balance * sizePct
    if maxSpend < 1/100 then s
    else
      let shares := maxSpend / price
      let cost := shares * price
      let trade : Trade :=
        { side := side, entryPrice := price, shares := shares, cost := cost,
          marketSlug := d.marketSlug, aiConfidence := d.aiConfidence,
          timeLeftAtEntry := d.timeLeft, martingaleLevel := s.martingaleLevel,
          positionSizePct := sizePct }
      { s with currentTrade := some trade, balance := s.balance - cost }

/-! ## Tick input -/

/-- `ai.analysis` fields the engine reads. -/
structure Analysis where
  direction : Direction
  confidence : Option ℚ
deriving DecidableEq

/-- The `ai` member of the tick data. -/
structure AiInput where
  enabled : Bool
  analysis : Option Analysis
deriving DecidableEq

/-- The `poly` member of the tick data. -/
structure PolyInput where
  ok : Bool
  slug : String
  upPrice : Option ℚ
  downPrice : Option ℚ
deriving DecidableEq

/-- The tick snapshot `data` consumed by `processTick`. -/
structure TickData where
  ai : Option AiInput
  poly : Option PolyInput
  timeLeft : Option ℚ
  ptbDelta : Option ℚ
deriving DecidableEq

/-- `poly?.slug || ''` of the source. -/
def tickSlug (poly : Option PolyInput) : String :=
  match poly with
  | some p => p.slug
  | none => ""

/-- The WIN/LOSS resolution used at settlement for a non-null delta:
`upWon = delta > 0`; WIN iff side matches the winner. -/
def resolveOutcome (side : Side) (delta : ℚ) : Outcome :=
  if (side = Side.UP ∧ 0 < delta) ∨ (side = Side.DOWN ∧ ¬ 0 < delta) then
    Outcome.WIN
  else Outcome.LOSS

/-- `marketSlug !== state.lastSettledSlug` (a string is never loosely
equal to `null`). -/
def slugDiffers (m : String) (lastSettled : Option String) : Bool :=
  match lastSettled with
  | none => true
  | some x => m != x

/-! ## Paper trader: processTick, phase by phase -/

/-- The window-rollover settlement block of `processTick`
(paperTrader.js lines 761-770), including the post-settlement
`lastSettledSlug` assignment written exactly as the source's
`state.currentTrade?.marketSlug ?? marketSlug`. -/
def settlementPhase (s : PaperState) (d : TickData) : PaperState :=
  let marketSlug := tickSlug d.poly
  match s.currentTrade with
  | some t =>
    if marketSlug ≠ "" ∧ t.marketSlug ≠ "" ∧ t.marketSlug ≠ marketSlug then
      let s1 :=
        match s.lastPtbDelta with
        | some delta =>
          if delta ≠ 0 then settleTrade s (resolveOutcome t.side delta)
          else settleTrade s Outcome.UNKNOWN
        | none => settleTrade s Outcome.UNKNOWN
      let settledSlug :=
        match s1.currentTrade with
        | some t2 => t2.marketSlug
        | none => marketSlug
      { s1 with lastSettledSlug := some settledSlug, lastPtbDelta := none }
    else s
  | none => s

/-- The time-expiry settlement block of `processTick` (paperTrader.js
lines 772-776). -/
def expiryPhase (s : PaperState) (d : TickData) : PaperState :=
  match s.currentTrade, d.timeLeft, d.ptbDelta with
  | some t, some tl, some delta =>
    if tl ≤ 1/10 ∧ delta ≠ 0 then settleTrade s (resolveOutcome t.side delta)
    else s
  | _, _, _ => s

/-- The capital-protection-and-entry block of `processTick`
(paperTrader.js lines 794-849), including the temporary
`positionSizePct` override around `enterTrade`. -/
def entryPhase (s : PaperState) (d : TickData) : PaperState :=
  match s.currentTrade with
  | some _ => s
  | none =>
    match d.ai, d.poly with
    | some ai, some poly =>
      match ai.analysis with
      | none => s
      | some analysis =>
        let marketSlug := poly.slug
        let drawdownPct :=
          (s.config.initialBalance - s.balance) / s.config.initialBalance
        let haltThreshold : ℚ :=
          if s.config.maxDrawdownHalt = 0 then 3/20 else s.config.maxDrawdownHalt
        if s.balance > 1/2 ∧ drawdownPct < haltThreshold ∧ ai.enabled = true ∧
           poly.ok = true ∧ marketSlug ≠ "" ∧
           slugDiffers marketSlug s.lastSettledSlug = true then
          let confidence := analysis.confidence.getD 0
          let dynamicSizePct :=
            if drawdownPct > 1/20 then
              max (1/100) (s.config.positionSizePct * (1 - drawdownPct))
            else s.config.positionSizePct
          match d.timeLeft, poly.upPrice, poly.downPrice with
          | some tl, some up, some down =>
            if (analysis.direction = Direction.UP ∨
                analysis.direction = Direction.DOWN) ∧
               confidence ≥ s.config.minAiConfidence ∧
               s.config.minEntryTimeLeft ≤ tl ∧ tl ≤ s.config.maxEntryTimeLeft then
              let price := if analysis.direction = Direction.UP then up else down
              if 0 < price ∧ price < 1 then
                let side :=
                  if analysis.direction = Direction.UP then Side.UP else Side.DOWN
                let origSize := s.config.positionSizePct
                let sOv :=
                  { s with config :=
                    { s.config with positionSizePct := dynamicSizePct } }
                let s1 := enterTrade sOv side price
                  { marketSlug := marketSlug, aiConfidence := confidence,
                    timeLeft := some tl }
                { s1 with config := { s1.config with positionSizePct := origSize } }
              else s
            else s
          | _, _, _ => s
        else s
    | _, _ => s

/-- `processTick` of paperTrader.js: record the tick's delta, then
settlement, expiry settlement, and the entry decision. -/
def processTick (s0 : PaperState) (d : TickData) : PaperState :=
  let s :=
    match d.ptbDelta with
    | some delta => { s0 with lastPtbDelta := some delta }
    | none => s0
  entryPhase (expiryPhase (settlementPhase s d) d) d

/-! ## Real trader: data model -/

/-- `config.martingale` of the real trading engine. -/
structure RealMg where
  enabled : Bool
  multiplier : ℚ
  maxLevel : ℕ
  maxPositionUsd : ℚ
deriving DecidableEq

/-- The mutable `config` of the real trading engine. -/
structure RealConfig where
  enabled : Bool
  maxPositionUsd : ℚ
  maxDailyLossUsd : ℚ
  minConfidence : ℚ
  martingale : RealMg
deriving DecidableEq

/-- `state.currentOrder` of the real trading engine (behaviour-relevant
fields).  `orderId = none` is the phantom-order case. -/
structure RealOrder where
  orderId : Option String
  side : Side
  entryPrice : ℚ
  shares : ℚ
  cost : ℚ
  marketSlug : String
  aiConfidence : ℚ
  martingaleLevel : ℕ
deriving DecidableEq

/-- An element of the real engine's `state.history`. -/
structure RealSettledTrade where
  order : RealOrder
  outcome : Outcome
  pnl : ℚ
deriving DecidableEq

/-- `state.stats` of the real trading engine. -/
structure RealStats where
  totalTrades : ℕ
  wins : ℕ
  losses : ℕ
  totalPnl : ℚ
deriving DecidableEq

/-- The real engine state: the module's `state` object plus the
module-level variables `sessionConfirmed`, `halted`, `haltReason`, and
the readiness flag of the external CLOB collaborator. -/
structure RealState where
  config : RealConfig
  sessionConfirmed : Bool
  halted : Bool
  haltReason : String
  clobReady : Bool
  currentOrder : Option RealOrder
  lastSettledSlug : Option String
  lastPtbDelta : Option ℚ
  dailyLoss : ℚ
  dailyLossDate : String
  martingaleLevel : ℕ
  history : List RealSettledTrade
  stats : RealStats
deriving DecidableEq

/-! ## Real trader: operations -/

/-- `checkDailyReset` of the real trading engine: at a calendar-day
rollover, zero the daily-loss accumulator and clear a daily-loss halt. -/
def checkDailyReset (s : RealState) (today : String) : RealState :=
  if s.dailyLossDate ≠ today then
    let clears := s.haltReason = "daily_loss_limit"
    { s with dailyLoss := 0, dailyLossDate := today,
             halted := if clears then false else s.halted,
             haltReason := if clears then "" else s.haltReason }
  else s

/-- `canTrade` of the real trading engine; returns the check result and
the (possibly mutated) state, since the check itself may reset the day
or set the daily-loss halt. -/
def canTrade (s : RealState) (today : String) : Bool × RealState :=
  if s.config.enabled = false then (false, s)
  else if s.sessionConfirmed = false then (false, s)
  else if s.clobReady = false then (false, s)
  else if s.halted = true then (false, s)
  else
    let s1 := checkDailyReset s today
    if s1.dailyLoss ≥ s1.config.maxDailyLossUsd then
      (false, { s1 with halted := true, haltReason := "daily_loss_limit" })
    else (true, s1)

/-- `getEffectiveMaxSpend` of the real trading engine. -/
def getEffectiveMaxSpend (s : RealState) : ℚ :=
  let base := s.config.maxPositionUsd
  if s.config.martingale.enabled then
    min (base * s.config.martingale.multiplier ^
          (min s.martingaleLevel s.config.martingale.maxLevel))
        s.config.martingale.maxPositionUsd
  else base

/-- The behaviour-relevant part of the `data` record handed to the real
`enterTrade`. -/
structure RealEntryData where
  marketSlug : String
  aiConfidence : ℚ
deriving DecidableEq

/-- `enterTrade` of the real trading engine.  `orderResult` is the
outcome of the external `placeBuyOrder` call: `some orderId` on
confirmed success, `none` on failure (in which case no position is
recorded). -/
def enterTradeReal (s : RealState) (side : Side) (price : ℚ)
    (d : RealEntryData) (orderResult : Option String) : RealState :=
  if s.currentOrder.isSome then s
  else if price ≤ 0 ∨ 1 ≤ price then s
  else
    let maxSpend := getEffectiveMaxSpend s
    let shares : ℤ := ⌊maxSpend / price⌋
    if shares < 1 then s
    else
      match orderResult with
      | none => s
      | some oid =>
        let cost : ℚ := (shares : ℚ) * price
        let order : RealOrder :=
          { orderId := some oid, side := side, entryPrice := price,
            shares := (shares : ℚ), cost := cost, marketSlug := d.marketSlug,
            aiConfidence := d.aiConfidence,
            martingaleLevel := s.martingaleLevel }
        { s with currentOrder := some order }

/-- `settleTrade` of the real trading engine: realize P&L, append to
history, update stats / daily loss / martingale level, clear the order,
and re-arm the daily-loss halt if the cap is reached. -/
def settleTradeReal (s : RealState) (outcome : Outcome) : RealState :=
  match s.currentOrder with
  | none => s
  | some trade =>
    let pnl : ℚ :=
      match outcome with
      | Outcome.WIN => trade.shares * 1 - trade.cost
      | Outcome.LOSS => - trade.cost
      | Outcome.UNKNOWN => 0
    let settled : RealSettledTrade :=
      { order := trade, outcome := outcome, pnl := pnl }
    let stats : RealStats :=
      if outcome = Outcome.UNKNOWN then s.stats
      else
        { totalTrades := s.stats.totalTrades + 1
          wins := if outcome = Outcome.WIN then s.stats.wins + 1 else s.stats.wins
          losses := if outcome = Outcome.WIN then s.stats.losses else s.stats.losses + 1
          totalPnl := s.stats.totalPnl + pnl }
    let dailyLoss : ℚ :=
      if outcome = Outcome.LOSS then s.dailyLoss + |pnl| else s.dailyLoss
    let level : ℕ :=
      if outcome = Outcome.UNKNOWN then s.martingaleLevel
      else if outcome = Outcome.WIN then 0
      else if s.config.martingale.enabled then
        min (s.martingaleLevel + 1) s.config.martingale.maxLevel
      else s.martingaleLevel
    let s1 :=
      { s with history := s.history ++ [settled], stats := stats,
               dailyLoss := dailyLoss, martingaleLevel := level,
               currentOrder := none }
    if s1.dailyLoss ≥ s1.config.maxDailyLossUsd then
      { s1 with halted := true, haltReason := "daily_loss_limit" }
    else s1

/-- The settled-trade record the real `settleTrade` appends to the
history for an open order `u` and outcome `o`. -/
def realSettledRecord (u : RealOrder) (o : Outcome) : RealSettledTrade :=
  { order := u,
    outcome := o,
    pnl :=
      match o with
      | Outcome.WIN => u.shares * 1 - u.cost
      | Outcome.LOSS => - u.cost
      | Outcome.UNKNOWN => 0 }

/-! ## Real trader: processRealTick, phase by phase -/

/-- `data.tokens` of the real tick. -/
structure Tokens where
  upTokenId : Option String
  downTokenId : Option String
deriving DecidableEq

/-- The tick snapshot consumed by `processRealTick`. -/
structure RealTickData where
  ai : Option AiInput
  poly : Option PolyInput
  timeLeft : Option ℚ
  ptbDelta : Option ℚ
  tokens : Option Tokens
deriving DecidableEq

/-- The phantom-order cleanup at the top of `processRealTick`: an order
without an external order id is cleared defensively. -/
def phantomPhase (s : RealState) : RealState :=
  match s.currentOrder with
  | some o => if o.orderId = none then { s with currentOrder := none } else s
  | none => s

/-- The window-rollover settlement block of `processRealTick`, written
exactly like the paper engine's (including the
`state.currentOrder?.marketSlug ?? marketSlug` assignment). -/
def realSettlementPhase (s : RealState) (d : RealTickData) : RealState :=
  let marketSlug := tickSlug d.poly
  match s.currentOrder with
  | some t =>
    if marketSlug ≠ "" ∧ t.marketSlug ≠ "" ∧ t.marketSlug ≠ marketSlug then
      let s1 :=
        match s.lastPtbDelta with
        | some delta =>
          if delta ≠ 0 then settleTradeReal s (resolveOutcome t.side delta)
          else settleTradeReal s Outcome.UNKNOWN
        | none => settleTradeReal s Outcome.UNKNOWN
      let settledSlug :=
        match s1.currentOrder with
        | some t2 => t2.marketSlug
        | none => marketSlug
      { s1 with lastSettledSlug := some settledSlug, lastPtbDelta := none }
    else s
  | none => s

/-- The time-expiry settlement block of `processRealTick`. -/
def realExpiryPhase (s : RealState) (d : RealTickData) : RealState :=
  match s.currentOrder, d.timeLeft, d.ptbDelta with
  | some t, some tl, some delta =>
    if tl ≤ 1/10 ∧ delta ≠ 0 then
      settleTradeReal s (resolveOutcome t.side delta)
    else s
  | _, _, _ => s

/-- The entry block of `processRealTick`: the `canTrade` safety check is
evaluated on every tick (its state mutations persist even when the
entry conditions fail). -/
def realEntryPhase (s : RealState) (d : RealTickData) (today : String)
    (orderResult : Option String) : RealState :=
  let checked := canTrade s today
  let s1 := checked.2
  if checked.1 = true ∧ s1.currentOrder = none then
    match d.ai, d.poly with
    | some ai, some poly =>
      match ai.analysis with
      | none => s1
      | some analysis =>
        let marketSlug := poly.slug
        if ai.enabled = true ∧ poly.ok = true ∧ marketSlug ≠ "" ∧
           slugDiffers marketSlug s1.lastSettledSlug = true then
          let confidence := analysis.confidence.getD 0
          match d.timeLeft, poly.upPrice, poly.downPrice with
          | some tl, some up, some down =>
            if (analysis.direction = Direction.UP ∨
                analysis.direction = Direction.DOWN) ∧
               confidence ≥ s1.config.minConfidence ∧ 2 ≤ tl ∧ tl ≤ 13 then
              let tokenId : Option String :=
                match d.tokens with
                | some tk =>
                  if analysis.direction = Direction.UP then tk.upTokenId
                  else tk.downTokenId
                | none => none
              let price := if analysis.direction = Direction.UP then up else down
              match tokenId with
              | none => s1
              | some _ =>
                if 0 < price ∧ price < 1 then
                  let side :=
                    if analysis.direction = Direction.UP then Side.UP
                    else Side.DOWN
                  enterTradeReal s1 side price
                    { marketSlug := marketSlug, aiConfidence := confidence }
                    orderResult
                else s1
            else s1
          | _, _, _ => s1
        else s1
    | _, _ => s1
  else s1

/-- `processRealTick` of the real trading engine.  `today` is the
current calendar date; `orderResult` is the external order venue's
response should an order be placed.  The trailing `checkDailyReset`
mirrors the `getPublicState()` call on return. -/
def processRealTick (s0 : RealState) (d : RealTickData) (today : String)
    (orderResult : Option String) : RealState :=
  if s0.config.enabled = false then checkDailyReset s0 today
  else
    let s := phantomPhase s0
    let s :=
      match d.ptbDelta with
      | some delta => { s with lastPtbDelta := some delta }
      | none => s
    let s := realSettlementPhase s d
    let s := realExpiryPhase s d
    let s := realEntryPhase s d today orderResult
    checkDailyReset s today

/-- `confirmRealSession` of the real trading engine; the Bool is the
`ok` field of the returned record. -/
def confirmRealSession (s : RealState) : RealState × Bool :=
  if s.config.enabled = false then (s, false)
  else if s.clobReady = false then (s, false)
  else ({ s with sessionConfirmed := true }, true)

/-- Result of the kill switch: the new state plus whether a cancel-all
request was issued to the external venue. -/
structure KillResult where
  state : RealState
  cancelRequested : Bool
deriving DecidableEq

/-- `killSwitch` of the real trading engine: halt, revoke the session
confirmation, cancel outstanding venue orders when the client is ready,
and clear the local open order. -/
def killSwitch (s : RealState) : KillResult :=
  let s1 := { s with halted := true, haltReason := "kill_switch",
                     sessionConfirmed := false }
  { state := { s1 with currentOrder := none },
    cancelRequested := s1.clobReady }

/-- The settlement delta in force during a tick: the tick's own
`ptbDelta` when present (it is stored into `lastPtbDelta` first),
otherwise the previously stored one. -/
def effDelta (s : PaperState) (d : TickData) : Option ℚ :=
  match d.ptbDelta with
  | some x => some x
  | none => s.lastPtbDelta

/-! ## Concrete fixtures (used by witnesses and counterexamples) -/

/-- The default paper config (martingale disabled). -/
def cfgD : PaperConfig :=
  { initialBalance := 100, positionSizePct := 3/100, minAiConfidence := 72,
    minEntryTimeLeft := 2, maxEntryTimeLeft := 13, learningWindow := 20,
    maxDrawdownHalt := 3/20,
    martingale := { enabled := false, multiplier := 3/2, maxLevel := 3,
                    maxPositionPct := 1/10 } }

/-- The default paper config with martingale enabled. -/
def cfgM4 : PaperConfig :=
  { cfgD with martingale := { enabled := true, multiplier := 3/2, maxLevel := 3,
                              maxPositionPct := 1/10 } }

/-- The default paper config with a raised threshold of 90. -/
def cfg90 : PaperConfig := { cfgD with minAiConfidence := 90 }

/-- Fresh stats. -/
def statsZ : Stats :=
  { totalTrades := 0, wins := 0, losses := 0, totalPnl := 0,
    peakBalance := 100, streak := 0 }

/-- An open trade in market `window-a`. -/
def tradeA : Trade :=
  { side := Side.UP, entryPrice := 2/5, shares := 15/2, cost := 3,
    marketSlug := "window-a", aiConfidence := 80, timeLeftAtEntry := some 5,
    martingaleLevel := 0, positionSizePct := 3/100 }

/-- A paper state holding the open trade `tradeA`. -/
def psOpen : PaperState :=
  { config := cfgD, balance := 97, currentTrade := some tradeA,
    lastSettledSlug := none, lastPtbDelta := none, martingaleLevel := 0,
    history := [], stats := statsZ }

/-- An idle paper state at the initial balance. -/
def psIdle : PaperState :=
  { config := cfgD, balance := 100, currentTrade := none,
    lastSettledSlug := none, lastPtbDelta := none, martingaleLevel := 0,
    history := [], stats := statsZ }

/-- A rollover tick: market `window-b` with a positive delta. -/
def tickRoll : TickData :=
  { ai := none,
    poly := some { ok := true, slug := "window-b", upPrice := some (1/2),
                   downPrice := some (1/2) },
    timeLeft := some 15, ptbDelta := some 5 }

/-- An otherwise valid UP entry tick whose DOWN price lies outside
(0,1). -/
def tickBadDown : TickData :=
  { ai := some { enabled := true,
                 analysis := some { direction := Direction.UP,
                                    confidence := some 80 } },
    poly := some { ok := true, slug := "window-c", upPrice := some (1/2),
                   downPrice := some (3/2) },
    timeLeft := some 5, ptbDelta := none }

/-- Stats after one loss, with a peak balance of 120 above the current
balance. -/
def statsC4 : Stats :=
  { totalTrades := 1, wins := 0, losses := 1, totalPnl := -3,
    peakBalance := 120, streak := -1 }

/-- An idle martingale-enabled paper state at balance 110 (above the
initial 100, below the peak 120) and martingale level 1. -/
def psC4 : PaperState :=
  { config := cfgM4, balance := 110, currentTrade := none,
    lastSettledSlug := none, lastPtbDelta := none, martingaleLevel := 1,
    history := [], stats := statsC4 }

/-- A valid UP entry tick in market `window-d`. -/
def tickC4 : TickData :=
  { ai := some { enabled := true,
                 analysis := some { direction := Direction.UP,
                                    confidence := some 80 } },
    poly := some { ok := true, slug := "window-d", upPrice := some (1/2),
                   downPrice := some (1/2) },
    timeLeft := some 5, ptbDelta := none }

/-- The trade `tickC4` opens from `psC4`. -/
def tradeC4 : Trade :=
  { side := Side.UP, entryPrice := 1/2, shares := 99/10, cost := 99/20,
    marketSlug := "window-d", aiConfidence := 80, timeLeftAtEntry := some 5,
    martingaleLevel := 1, positionSizePct := 9/200 }

/-- A settled-history element with a given outcome (only the outcome
matters to the adaptive controller). -/
def mkSettled (o : Outcome) : SettledTrade :=
  { trade := tradeA, outcome := o, pnl := 0, balanceAfter := 100 }

/-- A paper state with threshold 90 and five settled trades at a recent
win rate of 2/5. -/
def ps6 : PaperState :=
  { config := cfg90, balance := 100, currentTrade := none,
    lastSettledSlug := none, lastPtbDelta := none, martingaleLevel := 0,
    history := [mkSettled Outcome.WIN, mkSettled Outcome.WIN,
                mkSettled Outcome.LOSS, mkSettled Outcome.LOSS,
                mkSettled Outcome.LOSS],
    stats := statsZ }

/-- A real config: enabled, $5 position cap, $10 daily-loss cap,
threshold 80, martingale disabled. -/
def rcfg : RealConfig :=
  { enabled := true, maxPositionUsd := 5, maxDailyLossUsd := 10,
    minConfidence := 80,
    martingale := { enabled := false, multiplier := 3/2, maxLevel := 3,
                    maxPositionUsd := 10 } }

/-- Fresh real stats. -/
def rstatsZ : RealStats :=
  { totalTrades := 0, wins := 0, losses := 0, totalPnl := 0 }

/-- An open real order in market `window-a`. -/
def rordA : RealOrder :=
  { orderId := some "ord-1", side := Side.UP, entryPrice := 1/2, shares := 10,
    cost := 5, marketSlug := "window-a", aiConfidence := 85,
    martingaleLevel := 0 }

/-- A confirmed, ready real state holding `rordA`, with $6 of daily loss
already accumulated. -/
def rsOpen : RealState :=
  { config := rcfg, sessionConfirmed := true, halted := false, haltReason := "",
    clobReady := true, currentOrder := some rordA, lastSettledSlug := none,
    lastPtbDelta := none, dailyLoss := 6, dailyLossDate := "2026-02-03",
    martingaleLevel := 0, history := [], stats := rstatsZ }

/-- A real state halted by the daily-loss limit. -/
def rsHalted : RealState :=
  { rsOpen with halted := true, haltReason := "daily_loss_limit",
                dailyLoss := 12, currentOrder := none }

/-- An idle real state whose session has not been confirmed. -/
def rsUnconf : RealState :=
  { rsOpen with sessionConfirmed := false, currentOrder := none }

/-- `rsHalted` after its first next-day tick: the trailing
`checkDailyReset` has cleared the daily-loss halt and the accumulator,
leaving the pre-halt session confirmation in force. -/
def rsCleared : RealState :=
  { rsHalted with dailyLoss := 0, dailyLossDate := "2026-02-04",
                  halted := false, haltReason := "" }

/-- An idle, confirmed, ready real state. -/
def rsIdle : RealState := { rsOpen with currentOrder := none }

/-- A real tick that satisfies every entry condition. -/
def rtickGood : RealTickData :=
  { ai := some { enabled := true,
                 analysis := some { direction := Direction.UP,
                                    confidence := some 90 } },
    poly := some { ok := true, slug := "window-x", upPrice := some (1/2),
                   downPrice := some (1/2) },
    timeLeft := some 5, ptbDelta := none,
    tokens := some { upTokenId := some "tok-u", downTokenId := some "tok-d" } }

/-! ## Helper lemmas -/

/-- The adaptive controller touches nothing but the confidence
threshold inside the config. -/
theorem adjustLearning_frame (s : PaperState) :
    (adjustLearning s).balance = s.balance ∧
    (adjustLearning s).currentTrade = s.currentTrade ∧
    (adjustLearning s).history = s.history ∧
    (adjustLearning s).martingaleLevel = s.martingaleLevel ∧
    (adjustLearning s).stats = s.stats ∧
    (adjustLearning s).lastSettledSlug = s.lastSettledSlug ∧
    (adjustLearning s).lastPtbDelta = s.lastPtbDelta ∧
    (adjustLearning s).config.martingale = s.config.martingale := by
  simp only [adjustLearning]
  split <;> simp

/-- Field-level characterisation of the paper `settleTrade` acting on a
present open trade. -/
theorem settleTrade_parts (s : PaperState) (t : Trade)
    (hs : s.currentTrade = some t) (o : Outcome) :
    (settleTrade s o).history = s.history ++ [settledRecord s t o] ∧
    (settleTrade s o).balance =
      (match o with
       | Outcome.WIN => s.balance + t.shares * 1
       | Outcome.LOSS => s.balance
       | Outcome.UNKNOWN => s.balance + t.cost) ∧
    (settleTrade s o).currentTrade = none ∧
    (settleTrade s o).martingaleLevel =
      (if o = Outcome.UNKNOWN then s.martingaleLevel
       else if o = Outcome.WIN then 0
       else if s.config.martingale.enabled then
         min (s.martingaleLevel + 1) s.config.martingale.maxLevel
       else s.martingaleLevel) ∧
    (settleTrade s o).stats =
      (if o = Outcome.UNKNOWN then s.stats
       else
         { totalTrades := s.stats.totalTrades + 1
           wins := if o = Outcome.WIN then s.stats.wins + 1 else s.stats.wins
           losses := if o = Outcome.WIN then s.stats.losses else s.stats.losses + 1
           streak :=
             if o = Outcome.WIN then
               (if s.stats.streak ≥ 0 then s.stats.streak + 1 else 1)
             else
               (if s.stats.streak ≤ 0 then s.stats.streak - 1 else -1)
           totalPnl := s.stats.totalPnl +
             (match o with
              | Outcome.WIN => t.shares * 1 - t.cost
              | Outcome.LOSS => - t.cost
              | Outcome.UNKNOWN => 0)
           peakBalance := max s.stats.peakBalance
             (match o with
              | Outcome.WIN => s.balance + t.shares * 1
              | Outcome.LOSS => s.balance
              | Outcome.UNKNOWN => s.balance + t.cost) }) ∧
    (settleTrade s o).config.martingale = s.config.martingale := by
  simp only [settleTrade, hs]
  refine ⟨?_, ?_, ?_, ?_, ?_, ?_⟩ <;> simp [adjustLearning_frame, settledRecord]

/-- Field-level characterisation of the real `settleTrade` acting on a
present open order. -/
theorem settleTradeReal_parts (r : RealState) (u : RealOrder)
    (hr : r.currentOrder = some u) (o : Outcome) :
    (settleTradeReal r o).history = r.history ++ [realSettledRecord u o] ∧
    (settleTradeReal r o).currentOrder = none ∧
    (settleTradeReal r o).dailyLoss =
      (if o = Outcome.LOSS then r.dailyLoss + |(- u.cost : ℚ)| else r.dailyLoss) ∧
    (settleTradeReal r o).martingaleLevel =
      (if o = Outcome.UNKNOWN then r.martingaleLevel
       else if o = Outcome.WIN then 0
       else if r.config.martingale.enabled then
         min (r.martingaleLevel + 1) r.config.martingale.maxLevel
       else r.martingaleLevel) ∧
    (settleTradeReal r o).stats =
      (if o = Outcome.UNKNOWN then r.stats
       else
         { totalTrades := r.stats.totalTrades + 1
           wins := if o = Outcome.WIN then r.stats.wins + 1 else r.stats.wins
           losses := if o = Outcome.WIN then r.stats.losses else r.stats.losses + 1
           totalPnl := r.stats.totalPnl +
             (match o with
              | Outcome.WIN => u.shares * 1 - u.cost
              | Outcome.LOSS => - u.cost
              | Outcome.UNKNOWN => 0) }) ∧
    (settleTradeReal r o).halted =
      (if (if o = Outcome.LOSS then r.dailyLoss + |(- u.cost : ℚ)| else r.dailyLoss) ≥
          r.config.maxDailyLossUsd then true else r.halted) ∧
    (settleTradeReal r o).haltReason =
      (if (if o = Outcome.LOSS then r.dailyLoss + |(- u.cost : ℚ)| else r.dailyLoss) ≥
          r.config.maxDailyLossUsd then "daily_loss_limit" else r.haltReason) ∧
    (settleTradeReal r o).config = r.config := by
  cases o <;> simp only [settleTradeReal, hr] <;>
    refine ⟨?_, ?_, ?_, ?_, ?_, ?_, ?_, ?_⟩ <;>
    simp_all [apply_ite, realSettledRecord]

/-- `enterTrade` only touches the balance and the open trade. -/
theorem enterTrade_frame (s : PaperState) (side : Side) (price : ℚ)
    (d : EntryData) :
    (enterTrade s side price d).history = s.history ∧
    (enterTrade s side price d).lastSettledSlug = s.lastSettledSlug ∧
    (enterTrade s side price d).lastPtbDelta = s.lastPtbDelta ∧
    (enterTrade s side price d).stats = s.stats ∧
    (enterTrade s side price d).martingaleLevel = s.martingaleLevel ∧
    (enterTrade s side price d).config = s.config := by
  simp only [enterTrade]
  split
  · simp
  · split <;> simp

/-- The entry phase never changes the history, stats, martingale level
or settlement bookkeeping fields. -/
theorem entryPhase_frame (s : PaperState) (d : TickData) :
    (entryPhase s d).history = s.history ∧
    (entryPhase s d).lastSettledSlug = s.lastSettledSlug ∧
    (entryPhase s d).lastPtbDelta = s.lastPtbDelta ∧
    (entryPhase s d).stats = s.stats ∧
    (entryPhase s d).martingaleLevel = s.martingaleLevel := by
  simp only [entryPhase]
  repeat' split
  all_goals simp [enterTrade_frame]

/-- The expiry phase is inert without an open trade. -/
theorem expiryPhase_of_none (s : PaperState) (d : TickData)
    (h : s.currentTrade = none) : expiryPhase s d = s := by
  simp only [expiryPhase]
  split <;> simp_all

/-- The settlement phase is inert without an open trade. -/
theorem settlementPhase_of_none (s : PaperState) (d : TickData)
    (h : s.currentTrade = none) : settlementPhase s d = s := by
  simp only [settlementPhase]
  split <;> simp_all

/-- `checkDailyReset` only touches the daily-loss accumulator, its date
and the halt flags. -/
theorem checkDailyReset_frame (r : RealState) (today : String) :
    (checkDailyReset r today).currentOrder = r.currentOrder ∧
    (checkDailyReset r today).sessionConfirmed = r.sessionConfirmed ∧
    (checkDailyReset r today).config = r.config ∧
    (checkDailyReset r today).clobReady = r.clobReady ∧
    (checkDailyReset r today).history = r.history ∧
    (checkDailyReset r today).stats = r.stats ∧
    (checkDailyReset r today).martingaleLevel = r.martingaleLevel ∧
    (checkDailyReset r today).lastSettledSlug = r.lastSettledSlug := by
  simp only [checkDailyReset]
  split <;> simp

/-- `checkDailyReset` is the identity within the same calendar day. -/
theorem checkDailyReset_same (r : RealState) (today : String)
    (h : r.dailyLossDate = today) : checkDailyReset r today = r := by
  simp only [checkDailyReset]
  simp [h]

/-- The real `settleTrade` never touches the session, client or date
fields, and never clears an existing halt. -/
theorem settleTradeReal_frame (r : RealState) (o : Outcome) :
    (settleTradeReal r o).sessionConfirmed = r.sessionConfirmed ∧
    (settleTradeReal r o).clobReady = r.clobReady ∧
    (settleTradeReal r o).dailyLossDate = r.dailyLossDate ∧
    (settleTradeReal r o).config = r.config ∧
    (r.halted = true → (settleTradeReal r o).halted = true) := by
  simp only [settleTradeReal]
  split
  · simp
  · refine ⟨?_, ?_, ?_, ?_, ?_⟩ <;> intros <;> (repeat' split) <;> simp_all

/-- The phantom cleanup is inert without an open order. -/
theorem phantomPhase_of_none (r : RealState) (h : r.currentOrder = none) :
    phantomPhase r = r := by
  simp only [phantomPhase]
  split <;> simp_all

/-- The real settlement phase is inert without an open order. -/
theorem realSettlementPhase_of_none (r : RealState) (d : RealTickData)
    (h : r.currentOrder = none) : realSettlementPhase r d = r := by
  simp only [realSettlementPhase]
  split <;> simp_all

/-- The real expiry phase is inert without an open order. -/
theorem realExpiryPhase_of_none (r : RealState) (d : RealTickData)
    (h : r.currentOrder = none) : realExpiryPhase r d = r := by
  simp only [realExpiryPhase]
  split <;> simp_all

/-- An unconfirmed session or an active halt makes `canTrade` fail with
no state change. -/
theorem canTrade_blocked (r : RealState) (today : String)
    (h : r.sessionConfirmed = false ∨ r.halted = true) :
    canTrade r today = (false, r) := by
  simp only [canTrade]
  rcases h with h | h <;> split_ifs <;> simp_all

/-- A failed `canTrade` short-circuits the whole entry phase. -/
theorem realEntryPhase_of_blocked (r : RealState) (d : RealTickData)
    (today : String) (res : Option String)
    (h : canTrade r today = (false, r)) :
    realEntryPhase r d today res = r := by
  simp only [realEntryPhase, h]
  simp

/-- With no open order and a blocked session (unconfirmed or halted),
a real tick leaves no open order behind. -/
theorem processRealTick_blocked_order (r : RealState) (d : RealTickData)
    (today : String) (res : Option String)
    (hord : r.currentOrder = none)
    (hblock : r.sessionConfirmed = false ∨ r.halted = true) :
    (processRealTick r d today res).currentOrder = none := by
  simp only [processRealTick]
  split
  · rw [(checkDailyReset_frame r today).1, hord]
  · rw [phantomPhase_of_none r hord]
    rcases hd : d.ptbDelta with _ | x <;> simp only [hd]
    · rw [realSettlementPhase_of_none r d hord,
        realExpiryPhase_of_none r d hord,
        realEntryPhase_of_blocked r d today res (canTrade_blocked r today hblock),
        (checkDailyReset_frame r today).1, hord]
    · have h1 : ({ r with lastPtbDelta := some x } : RealState).currentOrder
          = none := hord
      have h2 : canTrade { r with lastPtbDelta := some x } today =
          (false, { r with lastPtbDelta := some x }) :=
        canTrade_blocked _ today (by rcases hblock with h | h
                                     · exact Or.inl h
                                     · exact Or.inr h)
      rw [realSettlementPhase_of_none _ d h1, realExpiryPhase_of_none _ d h1,
        realEntryPhase_of_blocked _ d today res h2,
        (checkDailyReset_frame _ today).1]
      exact hord

/-- With no open order, an active halt and no date rollover, a real
tick keeps the halt flag set. -/
theorem processRealTick_halted_persists (r : RealState) (d : RealTickData)
    (today : String) (res : Option String)
    (hord : r.currentOrder = none)
    (hhalt : r.halted = true)
    (hdate : r.dailyLossDate = today) :
    (processRealTick r d today res).halted = true := by
  simp only [processRealTick]
  split
  · rw [checkDailyReset_same r today hdate]; exact hhalt
  · rw [phantomPhase_of_none r hord]
    rcases hd : d.ptbDelta with _ | x <;> simp only [hd]
    · rw [realSettlementPhase_of_none r d hord,
        realExpiryPhase_of_none r d hord,
        realEntryPhase_of_blocked r d today res
          (canTrade_blocked r today (Or.inr hhalt)),
        checkDailyReset_same r today hdate]
      exact hhalt
    · have h1 : ({ r with lastPtbDelta := some x } : RealState).currentOrder
          = none := hord
      have h2 : canTrade { r with lastPtbDelta := some x } today =
          (false, { r with lastPtbDelta := some x }) :=
        canTrade_blocked _ today (Or.inr hhalt)
      have h3 : checkDailyReset { r with lastPtbDelta := some x } today =
          { r with lastPtbDelta := some x } :=
        checkDailyReset_same _ today hdate
      rw [realSettlementPhase_of_none _ d h1, realExpiryPhase_of_none _ d h1,
        realEntryPhase_of_blocked _ d today res h2, h3]
      exact hhalt

/-- `enterTradeReal` never touches the session flag. -/
theorem enterTradeReal_sessionConfirmed (r : RealState) (side : Side)
    (price : ℚ) (d : RealEntryData) (res : Option String) :
    (enterTradeReal r side price d res).sessionConfirmed =
      r.sessionConfirmed := by
  simp only [enterTradeReal]
  repeat' split
  all_goals simp

/-- `canTrade` never touches the session flag. -/
theorem canTrade_sessionConfirmed (r : RealState) (today : String) :
    (canTrade r today).2.sessionConfirmed = r.sessionConfirmed := by
  simp only [canTrade]
  split_ifs <;> simp [(checkDailyReset_frame r today).2.1]

/-- The real settlement phase never touches the session flag. -/
theorem realSettlementPhase_sessionConfirmed (r : RealState)
    (d : RealTickData) :
    (realSettlementPhase r d).sessionConfirmed = r.sessionConfirmed := by
  simp only [realSettlementPhase]
  repeat' split
  all_goals simp [(settleTradeReal_frame _ _).1]

/-- The real expiry phase never touches the session flag. -/
theorem realExpiryPhase_sessionConfirmed (r : RealState) (d : RealTickData) :
    (realExpiryPhase r d).sessionConfirmed = r.sessionConfirmed := by
  simp only [realExpiryPhase]
  repeat' split
  all_goals simp [(settleTradeReal_frame _ _).1]

/-- The real entry phase never touches the session flag. -/
theorem realEntryPhase_sessionConfirmed (r : RealState) (d : RealTickData)
    (today : String) (res : Option String) :
    (realEntryPhase r d today res).sessionConfirmed = r.sessionConfirmed := by
  simp only [realEntryPhase]
  repeat' split
  all_goals simp [canTrade_sessionConfirmed, enterTradeReal_sessionConfirmed]

/-- The phantom cleanup never touches the session flag. -/
theorem phantomPhase_sessionConfirmed (r : RealState) :
    (phantomPhase r).sessionConfirmed = r.sessionConfirmed := by
  simp only [phantomPhase]
  repeat' split
  all_goals simp

/-- WIN/LOSS characterisation of the delta resolution for a non-zero
delta. -/
theorem resolveOutcome_cases (side : Side) (x : ℚ) (hx : x ≠ 0) :
    (resolveOutcome side x = Outcome.WIN ↔
      ((side = Side.UP ∧ 0 < x) ∨ (side = Side.DOWN ∧ x < 0))) ∧
    (resolveOutcome side x = Outcome.LOSS ↔
      ((side = Side.UP ∧ x < 0) ∨ (side = Side.DOWN ∧ 0 < x))) ∧
    resolveOutcome side x ≠ Outcome.UNKNOWN := by
  have hx' : x < 0 ∨ 0 < x := lt_or_gt_of_ne hx
  unfold resolveOutcome
  rcases side with _ | _ <;> rcases hx' with h | h <;>
    split <;> simp_all <;> linarith

/-- Behaviour of the paper settlement phase at a window rollover. -/
theorem settlementPhase_rollover (s : PaperState) (t : Trade) (d : TickData)
    (hcur : s.currentTrade = some t)
    (h1 : tickSlug d.poly ≠ "") (h2 : t.marketSlug ≠ "")
    (h3 : t.marketSlug ≠ tickSlug d.poly) :
    ∃ o : Outcome,
      (o = match s.lastPtbDelta with
           | some delta =>
             if delta ≠ 0 then resolveOutcome t.side delta
             else Outcome.UNKNOWN
           | none => Outcome.UNKNOWN) ∧
      (settlementPhase s d).history = (settleTrade s o).history ∧
      (settlementPhase s d).currentTrade = none ∧
      (settlementPhase s d).lastSettledSlug = some (tickSlug d.poly) ∧
      (settlementPhase s d).balance = (settleTrade s o).balance ∧
      (settlementPhase s d).stats = (settleTrade s o).stats ∧
      (settlementPhase s d).martingaleLevel =
        (settleTrade s o).martingaleLevel := by
  simp only [settlementPhase, hcur]
  rw [if_pos ⟨h1, h2, h3⟩]
  rcases hlp : s.lastPtbDelta with _ | x <;> simp only [hlp]
  · refine ⟨Outcome.UNKNOWN, rfl, ?_⟩
    rw [(settleTrade_parts s t hcur Outcome.UNKNOWN).2.2.1]
    simp
  · by_cases hx : x ≠ 0
    · refine ⟨resolveOutcome t.side x, by rw [if_pos hx], ?_⟩
      rw [if_pos hx,
        (settleTrade_parts s t hcur (resolveOutcome t.side x)).2.2.1]
      simp
    · refine ⟨Outcome.UNKNOWN, by rw [if_neg hx], ?_⟩
      rw [if_neg hx, (settleTrade_parts s t hcur Outcome.UNKNOWN).2.2.1]
      simp

/-- The paper settlement phase does nothing while the market identifier
has not rolled over. -/
theorem settlementPhase_same_slug (s : PaperState) (t : Trade) (d : TickData)
    (hcur : s.currentTrade = some t)
    (h : t.marketSlug = tickSlug d.poly) :
    settlementPhase s d = s := by
  simp only [settlementPhase, hcur]
  rw [if_neg]
  simp [h]

/-- The paper expiry phase settles by the tick delta when time has run
out and the delta is non-zero. -/
theorem expiryPhase_fires (s : PaperState) (t : Trade) (d : TickData)
    (tl x : ℚ) (hcur : s.currentTrade = some t)
    (htl : d.timeLeft = some tl) (hx : d.ptbDelta = some x)
    (h1 : tl ≤ 1/10) (h2 : x ≠ 0) :
    expiryPhase s d = settleTrade s (resolveOutcome t.side x) := by
  simp only [expiryPhase, hcur, htl, hx]
  rw [if_pos ⟨h1, h2⟩]

/-- Outcome characterisation of the rollover settlement rule as a
function of the optional delta. -/
theorem outcomeSpec (side : Side) (o : Outcome) (dopt : Option ℚ)
    (ho : o = match dopt with
              | some delta =>
                if delta ≠ 0 then resolveOutcome side delta
                else Outcome.UNKNOWN
              | none => Outcome.UNKNOWN) :
    (o = Outcome.WIN ↔ ∃ x : ℚ, dopt = some x ∧
      ((side = Side.UP ∧ 0 < x) ∨ (side = Side.DOWN ∧ x < 0))) ∧
    (o = Outcome.LOSS ↔ ∃ x : ℚ, dopt = some x ∧
      ((side = Side.UP ∧ x < 0) ∨ (side = Side.DOWN ∧ 0 < x))) ∧
    (o = Outcome.UNKNOWN ↔ (dopt = none ∨ dopt = some 0)) := by
  subst ho
  rcases dopt with _ | x <;> dsimp only
  · simp
  · by_cases hx : x ≠ 0
    · rw [if_pos hx]
      obtain ⟨hw, hl, hu⟩ := resolveOutcome_cases side x hx
      refine ⟨?_, ?_, ?_⟩
      · rw [hw]; simp
      · rw [hl]; simp
      · simp [hu, hx]
    · push_neg at hx
      subst hx
      rw [if_neg (by simp)]
      simp

/-- With no open trade, a paper tick reduces to the entry phase on the
delta-updated state. -/
theorem processTick_of_idle (s : PaperState) (d : TickData)
    (h : s.currentTrade = none) :
    processTick s d =
      entryPhase (match d.ptbDelta with
                  | some x => { s with lastPtbDelta := some x }
                  | none => s) d := by
  rcases hd : d.ptbDelta with _ | x <;> simp only [processTick, hd]
  · rw [settlementPhase_of_none _ _ h, expiryPhase_of_none _ _ h]
  · have h' : ({ s with lastPtbDelta := some x } :
        PaperState).currentTrade = none := h
    rw [settlementPhase_of_none _ _ h', expiryPhase_of_none _ _ h']

/-- Inversion of the paper entry phase: every condition the guard
checks holds whenever a trade was opened. -/
theorem entryPhase_inversion (s : PaperState) (d : TickData) (t : Trade)
    (hidle : s.currentTrade = none)
    (hentry : (entryPhase s d).currentTrade = some t) :
    ∃ (ai : AiInput) (analysis : Analysis) (poly : PolyInput),
      d.ai = some ai ∧ ai.analysis = some analysis ∧ d.poly = some poly ∧
      ai.enabled = true ∧ poly.ok = true ∧
      (s.config.initialBalance - s.balance) / s.config.initialBalance <
        (if s.config.maxDrawdownHalt = 0 then 3/20
         else s.config.maxDrawdownHalt) ∧
      (analysis.direction = Direction.UP ∨
       analysis.direction = Direction.DOWN) ∧
      analysis.confidence.getD 0 ≥ s.config.minAiConfidence ∧
      (∃ tl : ℚ, d.timeLeft = some tl ∧ s.config.minEntryTimeLeft ≤ tl ∧
        tl ≤ s.config.maxEntryTimeLeft) ∧
      poly.slug ≠ "" ∧ slugDiffers poly.slug s.lastSettledSlug = true ∧
      poly.upPrice.isSome = true ∧ poly.downPrice.isSome = true ∧
      (∃ p : ℚ, (if analysis.direction = Direction.UP then poly.upPrice
                 else poly.downPrice) = some p ∧ 0 < p ∧ p < 1) := by
  simp only [entryPhase, hidle] at hentry
  rcases hai : d.ai with _ | ai <;>
    rcases hpoly : d.poly with _ | poly <;>
      simp only [hai, hpoly] at hentry
  · simp [hidle] at hentry
  · simp [hidle] at hentry
  · simp [hidle] at hentry
  rcases han : ai.analysis with _ | analysis <;> simp only [han] at hentry
  · simp [hidle] at hentry
  by_cases hguard : (s.balance > 1/2 ∧
      (s.config.initialBalance - s.balance) / s.config.initialBalance <
        (if s.config.maxDrawdownHalt = 0 then 3/20
         else s.config.maxDrawdownHalt) ∧
      ai.enabled = true ∧ poly.ok = true ∧ ¬ poly.slug = "" ∧
      slugDiffers poly.slug s.lastSettledSlug = true)
  case neg => rw [if_neg hguard] at hentry; simp [hidle] at hentry
  rw [if_pos hguard] at hentry
  obtain ⟨hbal, hdd, hen, hok, hslug1, hslug2⟩ := hguard
  rcases htl : d.timeLeft with _ | tl <;>
    rcases hup : poly.upPrice with _ | up <;>
      rcases hdn : poly.downPrice with _ | dn <;>
        simp only [htl, hup, hdn] at hentry
  · simp [hidle] at hentry
  · simp [hidle] at hentry
  · simp [hidle] at hentry
  · simp [hidle] at hentry
  · simp [hidle] at hentry
  · simp [hidle] at hentry
  · simp [hidle] at hentry
  by_cases hcond : ((analysis.direction = Direction.UP ∨
      analysis.direction = Direction.DOWN) ∧
      analysis.confidence.getD 0 ≥ s.config.minAiConfidence ∧
      s.config.minEntryTimeLeft ≤ tl ∧ tl ≤ s.config.maxEntryTimeLeft)
  case neg => rw [if_neg hcond] at hentry; simp [hidle] at hentry
  rw [if_pos hcond] at hentry
  obtain ⟨hdir, hconf, htl1, htl2⟩ := hcond
  by_cases hprice : (0 < (if analysis.direction = Direction.UP then up
        else dn) ∧
      (if analysis.direction = Direction.UP then up else dn) < 1)
  case neg => rw [if_neg hprice] at hentry; simp [hidle] at hentry
  refine ⟨ai, analysis, poly, rfl, han, rfl, hen, hok, hdd, hdir, hconf,
    ⟨tl, rfl, htl1, htl2⟩, hslug1, hslug2, ?_, ?_,
    ⟨(if analysis.direction = Direction.UP then up else dn), ?_, ?_, ?_⟩⟩
  · simp [hup]
  · simp [hdn]
  · by_cases h : analysis.direction = Direction.UP <;> simp [h, hup, hdn]
  · rcases hprice with ⟨h1, h2⟩
    by_cases h : analysis.direction = Direction.UP <;> simp_all
  · rcases hprice with ⟨h1, h2⟩
    by_cases h : analysis.direction = Direction.UP <;> simp_all

/-- `canTrade` keeps the bookkeeping fields the entry guard reads. -/
theorem canTrade_keeps (r : RealState) (today : String) :
    (canTrade r today).2.lastSettledSlug = r.lastSettledSlug ∧
    (canTrade r today).2.config = r.config ∧
    (canTrade r today).2.currentOrder = r.currentOrder := by
  simp only [canTrade]
  split_ifs <;> simp [checkDailyReset_frame]

/-- The `canTrade` verdict ignores the stored settlement delta. -/
theorem canTrade_ok_lastPtbDelta (r : RealState) (v : Option ℚ)
    (today : String) :
    (canTrade { r with lastPtbDelta := v } today).1 =
      (canTrade r today).1 := by
  simp only [canTrade, checkDailyReset]
  split_ifs <;> simp_all

/-- Inversion of the real entry phase: every condition checked on the
road to `enterTrade` holds whenever an order was opened. -/
theorem realEntryPhase_inversion (s1 : RealState) (d : RealTickData)
    (today : String) (res : Option String) (u : RealOrder)
    (hidle : s1.currentOrder = none)
    (hentry : (realEntryPhase s1 d today res).currentOrder = some u) :
    ∃ (ai : AiInput) (analysis : Analysis) (poly : PolyInput) (tk : Tokens),
      d.ai = some ai ∧ ai.analysis = some analysis ∧ d.poly = some poly ∧
      d.tokens = some tk ∧ ai.enabled = true ∧ poly.ok = true ∧
      (canTrade s1 today).1 = true ∧
      (analysis.direction = Direction.UP ∨
       analysis.direction = Direction.DOWN) ∧
      analysis.confidence.getD 0 ≥ s1.config.minConfidence ∧
      (∃ tl : ℚ, d.timeLeft = some tl ∧ 2 ≤ tl ∧ tl ≤ 13) ∧
      poly.slug ≠ "" ∧ slugDiffers poly.slug s1.lastSettledSlug = true ∧
      poly.upPrice.isSome = true ∧ poly.downPrice.isSome = true ∧
      (∃ p : ℚ, (if analysis.direction = Direction.UP then poly.upPrice
                 else poly.downPrice) = some p ∧ 0 < p ∧ p < 1) ∧
      (if analysis.direction = Direction.UP then tk.upTokenId
       else tk.downTokenId).isSome = true := by
  obtain ⟨hkslug, hkcfg, hkord⟩ := canTrade_keeps s1 today
  simp only [realEntryPhase] at hentry
  by_cases hok : ((canTrade s1 today).1 = true ∧
      (canTrade s1 today).2.currentOrder = none)
  case neg =>
    rw [if_neg hok] at hentry
    rw [hkord, hidle] at hentry
    exact absurd hentry (by simp)
  rw [if_pos hok] at hentry
  rcases hai : d.ai with _ | ai <;>
    rcases hpoly : d.poly with _ | poly <;>
      simp only [hai, hpoly] at hentry
  · rw [hkord, hidle] at hentry; exact absurd hentry (by simp)
  · rw [hkord, hidle] at hentry; exact absurd hentry (by simp)
  · rw [hkord, hidle] at hentry; exact absurd hentry (by simp)
  rcases han : ai.analysis with _ | analysis <;> simp only [han] at hentry
  · rw [hkord, hidle] at hentry; exact absurd hentry (by simp)
  by_cases hguard : (ai.enabled = true ∧ poly.ok = true ∧
      ¬ poly.slug = "" ∧
      slugDiffers poly.slug (canTrade s1 today).2.lastSettledSlug = true)
  case neg =>
    rw [if_neg hguard] at hentry
    rw [hkord, hidle] at hentry
    exact absurd hentry (by simp)
  rw [if_pos hguard] at hentry
  obtain ⟨hen, hpok, hslug1, hslug2⟩ := hguard
  rw [hkslug] at hslug2
  rcases htl : d.timeLeft with _ | tl <;>
    rcases hup : poly.upPrice with _ | up <;>
      rcases hdn : poly.downPrice with _ | dn <;>
        simp only [htl, hup, hdn] at hentry
  · rw [hkord, hidle] at hentry; exact absurd hentry (by simp)
  · rw [hkord, hidle] at hentry; exact absurd hentry (by simp)
  · rw [hkord, hidle] at hentry; exact absurd hentry (by simp)
  · rw [hkord, hidle] at hentry; exact absurd hentry (by simp)
  · rw [hkord, hidle] at hentry; exact absurd hentry (by simp)
  · rw [hkord, hidle] at hentry; exact absurd hentry (by simp)
  · rw [hkord, hidle] at hentry; exact absurd hentry (by simp)
  by_cases hcond : ((analysis.direction = Direction.UP ∨
      analysis.direction = Direction.DOWN) ∧
      analysis.confidence.getD 0 ≥ (canTrade s1 today).2.config.minConfidence ∧
      2 ≤ tl ∧ tl ≤ 13)
  case neg =>
    rw [if_neg hcond] at hentry
    rw [hkord, hidle] at hentry
    exact absurd hentry (by simp)
  rw [if_pos hcond] at hentry
  obtain ⟨hdir, hconf, htl1, htl2⟩ := hcond
  rw [hkcfg] at hconf
  rcases htk : d.tokens with _ | tk <;> simp only [htk] at hentry
  · rw [hkord, hidle] at hentry; exact absurd hentry (by simp)
  rcases htok : (if analysis.direction = Direction.UP then tk.upTokenId
      else tk.downTokenId) with _ | tok <;> simp only [htok] at hentry
  · rw [hkord, hidle] at hentry; exact absurd hentry (by simp)
  by_cases hprice : (0 < (if analysis.direction = Direction.UP then up
        else dn) ∧
      (if analysis.direction = Direction.UP then up else dn) < 1)
  case neg =>
    rw [if_neg hprice] at hentry
    rw [hkord, hidle] at hentry
    exact absurd hentry (by simp)
  refine ⟨ai, analysis, poly, tk, rfl, han, rfl, rfl, hen, hpok, hok.1,
    hdir, hconf, ⟨tl, rfl, htl1, htl2⟩, hslug1, hslug2, ?_, ?_,
    ⟨(if analysis.direction = Direction.UP then up else dn), ?_, ?_, ?_⟩,
    ?_⟩
  · simp [hup]
  · simp [hdn]
  · by_cases h : analysis.direction = Direction.UP <;> simp [h, hup, hdn]
  · exact hprice.1
  · exact hprice.2
  · rw [htok]; rfl

/-- Concrete run: on `tickBadDown` (DOWN price 3/2, outside (0,1)) the
idle paper engine still opens an UP trade. -/
theorem eval_entry_badDown :
    (processTick psIdle tickBadDown).currentTrade = some
      { side := Side.UP, entryPrice := 1/2, shares := 6, cost := 3,
        marketSlug := "window-c", aiConfidence := 80,
        timeLeftAtEntry := some 5, martingaleLevel := 0,
        positionSizePct := 3/100 } := by
  have h0 : processTick psIdle tickBadDown =
      entryPhase psIdle tickBadDown := rfl
  rw [h0]
  norm_num [entryPhase, enterTrade, getEffectivePositionPct, slugDiffers,
    psIdle, tickBadDown, cfgD, statsZ, min_def, max_def]
  rfl

/-- Concrete run: on `tickC4` the martingale-enabled engine `psC4`
opens a trade whose recorded fraction is the de-risk base times the
martingale multiplier. -/
theorem eval_entry_mg :
    (processTick psC4 tickC4).currentTrade = some
      { side := Side.UP, entryPrice := 1/2, shares := 99/10, cost := 99/20,
        marketSlug := "window-d", aiConfidence := 80,
        timeLeftAtEntry := some 5, martingaleLevel := 1,
        positionSizePct := 9/200 } := by
  have h0 : processTick psC4 tickC4 = entryPhase psC4 tickC4 := rfl
  rw [h0]
  norm_num [entryPhase, enterTrade, getEffectivePositionPct, slugDiffers,
    psC4, tickC4, cfgM4, cfgD, statsC4, min_def, max_def]
  rfl

/-- Concrete run: on `rtickGood` the idle confirmed real engine places
a 10-share order at 50¢. -/
theorem eval_entry_real :
    (processRealTick rsIdle rtickGood "2026-02-03" (some "ord-9")).currentOrder
      = some { orderId := some "ord-9", side := Side.UP, entryPrice := 1/2,
               shares := 10, cost := 5, marketSlug := "window-x",
               aiConfidence := 90, martingaleLevel := 0 } := by
  norm_num [processRealTick, phantomPhase, realSettlementPhase,
    realExpiryPhase, realEntryPhase, canTrade, checkDailyReset,
    enterTradeReal, getEffectiveMaxSpend, slugDiffers, rsIdle, rsOpen,
    rcfg, rordA, rstatsZ, rtickGood, min_def, max_def]
  rfl

/-- The recorded position-size fraction of a trade opened by the paper
entry phase: the drawdown-adjusted base (drawdown measured from the
initial balance) fed through the martingale formula. -/
theorem entryPhase_sizing (s : PaperState) (d : TickData) (t : Trade)
    (hidle : s.currentTrade = none)
    (hentry : (entryPhase s d).currentTrade = some t) :
    t.positionSizePct =
      (if s.config.martingale.enabled = true then
        min ((if (s.config.initialBalance - s.balance) /
                  s.config.initialBalance > 1/20 then
                max (1/100) (s.config.positionSizePct *
                  (1 - (s.config.initialBalance - s.balance) /
                    s.config.initialBalance))
              else s.config.positionSizePct) *
              s.config.martingale.multiplier ^
                (min s.martingaleLevel s.config.martingale.maxLevel))
            s.config.martingale.maxPositionPct
      else
        (if (s.config.initialBalance - s.balance) /
              s.config.initialBalance > 1/20 then
           max (1/100) (s.config.positionSizePct *
             (1 - (s.config.initialBalance - s.balance) /
               s.config.initialBalance))
         else s.config.positionSizePct)) := by
  simp only [entryPhase, hidle] at hentry
  rcases hai : d.ai with _ | ai <;>
    rcases hpoly : d.poly with _ | poly <;>
      simp only [hai, hpoly] at hentry
  · simp [hidle] at hentry
  · simp [hidle] at hentry
  · simp [hidle] at hentry
  rcases han : ai.analysis with _ | analysis <;> simp only [han] at hentry
  · simp [hidle] at hentry
  by_cases hguard : (s.balance > 1/2 ∧
      (s.config.initialBalance - s.balance) / s.config.initialBalance <
        (if s.config.maxDrawdownHalt = 0 then 3/20
         else s.config.maxDrawdownHalt) ∧
      ai.enabled = true ∧ poly.ok = true ∧ ¬ poly.slug = "" ∧
      slugDiffers poly.slug s.lastSettledSlug = true)
  case neg => rw [if_neg hguard] at hentry; simp [hidle] at hentry
  rw [if_pos hguard] at hentry
  rcases htl : d.timeLeft with _ | tl <;>
    rcases hup : poly.upPrice with _ | up <;>
      rcases hdn : poly.downPrice with _ | dn <;>
        simp only [htl, hup, hdn] at hentry
  · simp [hidle] at hentry
  · simp [hidle] at hentry
  · simp [hidle] at hentry
  · simp [hidle] at hentry
  · simp [hidle] at hentry
  · simp [hidle] at hentry
  · simp [hidle] at hentry
  by_cases hcond : ((analysis.direction = Direction.UP ∨
      analysis.direction = Direction.DOWN) ∧
      analysis.confidence.getD 0 ≥ s.config.minAiConfidence ∧
      s.config.minEntryTimeLeft ≤ tl ∧ tl ≤ s.config.maxEntryTimeLeft)
  case neg => rw [if_neg hcond] at hentry; simp [hidle] at hentry
  rw [if_pos hcond] at hentry
  by_cases hprice : (0 < (if analysis.direction = Direction.UP then up
        else dn) ∧
      (if analysis.direction = Direction.UP then up else dn) < 1)
  case neg => rw [if_neg hprice] at hentry; simp [hidle] at hentry
  rw [if_pos hprice] at hentry
  simp only [enterTrade] at hentry
  repeat' split at hentry
  all_goals
    first
      | (simp [hidle] at hentry; done)
      | (simp only [Option.some.injEq] at hentry
         subst hentry
         simp only [getEffectivePositionPct]
         split_ifs <;> simp_all)

/-! ## Claim theorems -/

/-- C1: for every settled trade in either variant, the realized P&L
equals shares × 1.0 − stake when the outcome is WIN, equals −stake when
the outcome is LOSS, and equals 0 when the outcome is VOID (with the
stake returned to the simulated balance), given the trade's recorded
stake (cost) and share count. -/
theorem C1_settlement_pnl
    (s : PaperState) (t : Trade) (r : RealState) (u : RealOrder) (o : Outcome)
    (hs : s.currentTrade = some t) (hr : r.currentOrder = some u) :
    (∃ st : SettledTrade,
      (settleTrade s o).history = s.history ++ [st] ∧ st.trade = t ∧
      st.outcome = o ∧
      (o = Outcome.WIN → st.pnl = t.shares * 1 - t.cost) ∧
      (o = Outcome.LOSS → st.pnl = - t.cost) ∧
      (o = Outcome.UNKNOWN → st.pnl = 0 ∧
        (settleTrade s o).balance = s.balance + t.cost)) ∧
    (∃ rt : RealSettledTrade,
      (settleTradeReal r o).history = r.history ++ [rt] ∧ rt.order = u ∧
      rt.outcome = o ∧
      (o = Outcome.WIN → rt.pnl = u.shares * 1 - u.cost) ∧
      (o = Outcome.LOSS → rt.pnl = - u.cost) ∧
      (o = Outcome.UNKNOWN → rt.pnl = 0)) := by
  obtain ⟨hh, hb, -, -, -, -⟩ := settleTrade_parts s t hs o
  obtain ⟨hh2, -, -, -, -, -, -, -⟩ := settleTradeReal_parts r u hr o
  refine ⟨⟨_, hh, rfl, rfl, ?_, ?_, ?_⟩, ⟨_, hh2, rfl, rfl, ?_, ?_, ?_⟩⟩
  · rintro rfl; rfl
  · rintro rfl; rfl
  · rintro rfl; exact ⟨rfl, by rw [hb]⟩
  · rintro rfl; rfl
  · rintro rfl; rfl
  · rintro rfl; rfl

/-- Witness for C1 at the concrete open states `psOpen` / `rsOpen` and
outcome WIN. -/
theorem C1_settlement_pnl_witness :
    (psOpen.currentTrade = some tradeA ∧ rsOpen.currentOrder = some rordA) ∧
    ((∃ st : SettledTrade,
      (settleTrade psOpen Outcome.WIN).history = psOpen.history ++ [st] ∧
      st.trade = tradeA ∧ st.outcome = Outcome.WIN ∧
      (Outcome.WIN = Outcome.WIN →
        st.pnl = tradeA.shares * 1 - tradeA.cost) ∧
      (Outcome.WIN = Outcome.LOSS → st.pnl = - tradeA.cost) ∧
      (Outcome.WIN = Outcome.UNKNOWN → st.pnl = 0 ∧
        (settleTrade psOpen Outcome.WIN).balance =
          psOpen.balance + tradeA.cost)) ∧
    (∃ rt : RealSettledTrade,
      (settleTradeReal rsOpen Outcome.WIN).history = rsOpen.history ++ [rt] ∧
      rt.order = rordA ∧ rt.outcome = Outcome.WIN ∧
      (Outcome.WIN = Outcome.WIN →
        rt.pnl = rordA.shares * 1 - rordA.cost) ∧
      (Outcome.WIN = Outcome.LOSS → rt.pnl = - rordA.cost) ∧
      (Outcome.WIN = Outcome.UNKNOWN → rt.pnl = 0))) :=
  ⟨⟨rfl, rfl⟩, C1_settlement_pnl psOpen tradeA rsOpen rordA Outcome.WIN rfl rfl⟩

/-- C5: in both variants, after every settlement the martingale level
stays in [0, maxLevel]: it resets to 0 on WIN, increments capped at the
configured maximum on LOSS with martingale enabled, and is unchanged by
any other settlement outcome. -/
theorem C5_martingale_level
    (s : PaperState) (t : Trade) (r : RealState) (u : RealOrder)
    (hs : s.currentTrade = some t) (hr : r.currentOrder = some u)
    (hb : s.martingaleLevel ≤ s.config.martingale.maxLevel)
    (hb2 : r.martingaleLevel ≤ r.config.martingale.maxLevel) :
    ((settleTrade s Outcome.WIN).martingaleLevel = 0 ∧
     (settleTrade s Outcome.LOSS).martingaleLevel =
       (if s.config.martingale.enabled then
          min (s.martingaleLevel + 1) s.config.martingale.maxLevel
        else s.martingaleLevel) ∧
     (settleTrade s Outcome.UNKNOWN).martingaleLevel = s.martingaleLevel ∧
     ∀ o : Outcome, (settleTrade s o).martingaleLevel ≤
       (settleTrade s o).config.martingale.maxLevel) ∧
    ((settleTradeReal r Outcome.WIN).martingaleLevel = 0 ∧
     (settleTradeReal r Outcome.LOSS).martingaleLevel =
       (if r.config.martingale.enabled then
          min (r.martingaleLevel + 1) r.config.martingale.maxLevel
        else r.martingaleLevel) ∧
     (settleTradeReal r Outcome.UNKNOWN).martingaleLevel = r.martingaleLevel ∧
     ∀ o : Outcome, (settleTradeReal r o).martingaleLevel ≤
       (settleTradeReal r o).config.martingale.maxLevel) := by
  have hp := fun o => settleTrade_parts s t hs o
  have hq := fun o => settleTradeReal_parts r u hr o
  refine ⟨⟨?_, ?_, ?_, ?_⟩, ⟨?_, ?_, ?_, ?_⟩⟩
  · rw [(hp Outcome.WIN).2.2.2.1]; simp
  · rw [(hp Outcome.LOSS).2.2.2.1]; simp
  · rw [(hp Outcome.UNKNOWN).2.2.2.1]; simp
  · intro o
    have h1 := (hp o).2.2.2.1
    have h2 := (hp o).2.2.2.2.2
    clear hp hq
    rw [h1, h2]
    rcases o with _ | _ | _ <;> simp [hb] <;> split <;>
      simp [hb, min_le_right]
  · rw [(hq Outcome.WIN).2.2.2.1]; simp
  · rw [(hq Outcome.LOSS).2.2.2.1]; simp
  · rw [(hq Outcome.UNKNOWN).2.2.2.1]; simp
  · intro o
    have h1 := (hq o).2.2.2.1
    have h2 := (hq o).2.2.2.2.2.2.2
    clear hp hq
    rw [h1]
    rcases o with _ | _ | _ <;> simp [h2, hb2] <;> split <;>
      simp [hb2, min_le_right]

/-- Witness for C5 at `psOpen` / `rsOpen`. -/
theorem C5_martingale_level_witness :
    (psOpen.currentTrade = some tradeA ∧ rsOpen.currentOrder = some rordA ∧
     psOpen.martingaleLevel ≤ psOpen.config.martingale.maxLevel ∧
     rsOpen.martingaleLevel ≤ rsOpen.config.martingale.maxLevel) ∧
    (((settleTrade psOpen Outcome.WIN).martingaleLevel = 0 ∧
     (settleTrade psOpen Outcome.LOSS).martingaleLevel =
       (if psOpen.config.martingale.enabled then
          min (psOpen.martingaleLevel + 1) psOpen.config.martingale.maxLevel
        else psOpen.martingaleLevel) ∧
     (settleTrade psOpen Outcome.UNKNOWN).martingaleLevel =
       psOpen.martingaleLevel ∧
     ∀ o : Outcome, (settleTrade psOpen o).martingaleLevel ≤
       (settleTrade psOpen o).config.martingale.maxLevel) ∧
    ((settleTradeReal rsOpen Outcome.WIN).martingaleLevel = 0 ∧
     (settleTradeReal rsOpen Outcome.LOSS).martingaleLevel =
       (if rsOpen.config.martingale.enabled then
          min (rsOpen.martingaleLevel + 1) rsOpen.config.martingale.maxLevel
        else rsOpen.martingaleLevel) ∧
     (settleTradeReal rsOpen Outcome.UNKNOWN).martingaleLevel =
       rsOpen.martingaleLevel ∧
     ∀ o : Outcome, (settleTradeReal rsOpen o).martingaleLevel ≤
       (settleTradeReal rsOpen o).config.martingale.maxLevel)) :=
  ⟨⟨rfl, rfl, by norm_num [psOpen, cfgD], by norm_num [rsOpen, rcfg]⟩,
   C5_martingale_level psOpen tradeA rsOpen rordA rfl rfl
     (by norm_num [psOpen, cfgD]) (by norm_num [rsOpen, rcfg])⟩

/-- C10: settling with outcome VOID returns the stake to the simulated
balance and clears the open position, but leaves the statistics, the
daily loss and the martingale level unchanged in both variants. -/
theorem C10_void_frame
    (s : PaperState) (t : Trade) (r : RealState) (u : RealOrder)
    (hs : s.currentTrade = some t) (hr : r.currentOrder = some u) :
    ((settleTrade s Outcome.UNKNOWN).balance = s.balance + t.cost ∧
     (settleTrade s Outcome.UNKNOWN).currentTrade = none ∧
     (settleTrade s Outcome.UNKNOWN).stats = s.stats ∧
     (settleTrade s Outcome.UNKNOWN).martingaleLevel = s.martingaleLevel) ∧
    ((settleTradeReal r Outcome.UNKNOWN).currentOrder = none ∧
     (settleTradeReal r Outcome.UNKNOWN).stats = r.stats ∧
     (settleTradeReal r Outcome.UNKNOWN).dailyLoss = r.dailyLoss ∧
     (settleTradeReal r Outcome.UNKNOWN).martingaleLevel =
       r.martingaleLevel) := by
  obtain ⟨-, hbal, hnone, hlvl, hstats, -⟩ :=
    settleTrade_parts s t hs Outcome.UNKNOWN
  obtain ⟨-, hnone2, hdl, hlvl2, hstats2, -, -, -⟩ :=
    settleTradeReal_parts r u hr Outcome.UNKNOWN
  refine ⟨⟨?_, hnone, ?_, ?_⟩, ⟨hnone2, ?_, ?_, ?_⟩⟩
  · rw [hbal]
  · rw [hstats]; simp
  · rw [hlvl]; simp
  · rw [hstats2]; simp
  · rw [hdl]; simp
  · rw [hlvl2]; simp

/-- Witness for C10 at `psOpen` / `rsOpen`. -/
theorem C10_void_frame_witness :
    (psOpen.currentTrade = some tradeA ∧ rsOpen.currentOrder = some rordA) ∧
    (((settleTrade psOpen Outcome.UNKNOWN).balance =
        psOpen.balance + tradeA.cost ∧
     (settleTrade psOpen Outcome.UNKNOWN).currentTrade = none ∧
     (settleTrade psOpen Outcome.UNKNOWN).stats = psOpen.stats ∧
     (settleTrade psOpen Outcome.UNKNOWN).martingaleLevel =
       psOpen.martingaleLevel) ∧
    ((settleTradeReal rsOpen Outcome.UNKNOWN).currentOrder = none ∧
     (settleTradeReal rsOpen Outcome.UNKNOWN).stats = rsOpen.stats ∧
     (settleTradeReal rsOpen Outcome.UNKNOWN).dailyLoss = rsOpen.dailyLoss ∧
     (settleTradeReal rsOpen Outcome.UNKNOWN).martingaleLevel =
       rsOpen.martingaleLevel)) :=
  ⟨⟨rfl, rfl⟩, C10_void_frame psOpen tradeA rsOpen rordA rfl rfl⟩

/-- C7: in the real variant, once cumulative daily loss reaches the cap
the engine is halted (with reason `daily_loss_limit`) and no entry is
permitted on any subsequent same-day tick; a WIN neither reduces the
accumulator nor clears the halt, and the halt clears at a calendar-day
rollover, which also resets the accumulator. -/
theorem C7_daily_loss_halt :
    (∀ (r : RealState) (u : RealOrder), r.currentOrder = some u →
      (settleTradeReal r Outcome.LOSS).dailyLoss ≥ r.config.maxDailyLossUsd →
      (settleTradeReal r Outcome.LOSS).halted = true ∧
      (settleTradeReal r Outcome.LOSS).haltReason = "daily_loss_limit") ∧
    (∀ (r : RealState) (d : RealTickData) (today : String)
        (res : Option String),
      r.halted = true → r.currentOrder = none → r.dailyLossDate = today →
      (processRealTick r d today res).currentOrder = none ∧
      (processRealTick r d today res).halted = true) ∧
    (∀ (r : RealState) (u : RealOrder), r.currentOrder = some u →
      (settleTradeReal r Outcome.WIN).dailyLoss = r.dailyLoss ∧
      (r.halted = true → (settleTradeReal r Outcome.WIN).halted = true)) ∧
    (∀ (r : RealState) (today : String), r.dailyLossDate ≠ today →
      (checkDailyReset r today).dailyLoss = 0 ∧
      (r.haltReason = "daily_loss_limit" →
        (checkDailyReset r today).halted = false)) := by
  refine ⟨?_, ?_, ?_, ?_⟩
  · intro r u hord hcap
    obtain ⟨-, -, hdl, -, -, hhalt, hreason, -⟩ :=
      settleTradeReal_parts r u hord Outcome.LOSS
    rw [hdl] at hcap
    exact ⟨by rw [hhalt, if_pos hcap], by rw [hreason, if_pos hcap]⟩
  · intro r d today res hhalt hord hdate
    exact ⟨processRealTick_blocked_order r d today res hord (Or.inr hhalt),
      processRealTick_halted_persists r d today res hord hhalt hdate⟩
  · intro r u hord
    obtain ⟨-, -, hdl, -, -, -, -, -⟩ :=
      settleTradeReal_parts r u hord Outcome.WIN
    refine ⟨by rw [hdl]; simp, (settleTradeReal_frame r Outcome.WIN).2.2.2.2⟩
  · intro r today hdate
    constructor
    · simp [checkDailyReset, hdate]
    · intro hreason
      simp [checkDailyReset, hdate, hreason]

/-- Witness for C7: onset at `rsOpen` (a $5 loss takes the daily loss
from $6 to $11, past the $10 cap), persistence at `rsHalted` across a
fully valid entry tick, WIN-preservation at `rsOpen`, and a day
rollover clearing `rsHalted`. -/
theorem C7_daily_loss_halt_witness :
    (rsOpen.currentOrder = some rordA ∧
     (settleTradeReal rsOpen Outcome.LOSS).dailyLoss ≥
       rsOpen.config.maxDailyLossUsd ∧
     rsHalted.halted = true ∧ rsHalted.currentOrder = none ∧
     rsHalted.dailyLossDate = "2026-02-03" ∧
     rsHalted.dailyLossDate ≠ "2026-02-04") ∧
    ((settleTradeReal rsOpen Outcome.LOSS).halted = true ∧
     (settleTradeReal rsOpen Outcome.LOSS).haltReason = "daily_loss_limit") ∧
    ((processRealTick rsHalted rtickGood "2026-02-03" (some "ord-2")).currentOrder
        = none ∧
     (processRealTick rsHalted rtickGood "2026-02-03" (some "ord-2")).halted
        = true) ∧
    ((settleTradeReal rsOpen Outcome.WIN).dailyLoss = rsOpen.dailyLoss ∧
     (rsOpen.halted = true →
       (settleTradeReal rsOpen Outcome.WIN).halted = true)) ∧
    ((checkDailyReset rsHalted "2026-02-04").dailyLoss = 0 ∧
     (rsHalted.haltReason = "daily_loss_limit" →
       (checkDailyReset rsHalted "2026-02-04").halted = false)) := by
  have hcap : (settleTradeReal rsOpen Outcome.LOSS).dailyLoss ≥
      rsOpen.config.maxDailyLossUsd := by
    rw [(settleTradeReal_parts rsOpen rordA rfl Outcome.LOSS).2.2.1]
    norm_num [rsOpen, rordA, rcfg]
  have hne : rsHalted.dailyLossDate ≠ "2026-02-04" := by
    simp [rsHalted, rsOpen]
  refine ⟨⟨rfl, hcap, rfl, rfl, rfl, hne⟩, ?_, ?_, ?_, ?_⟩
  · exact C7_daily_loss_halt.1 rsOpen rordA rfl hcap
  · exact C7_daily_loss_halt.2.1 rsHalted rtickGood "2026-02-03"
      (some "ord-2") rfl rfl rfl
  · exact C7_daily_loss_halt.2.2.1 rsOpen rordA rfl
  · exact C7_daily_loss_halt.2.2.2 rsHalted "2026-02-04" hne

/-- C8 counterexample: `rsHalted` is halted by the daily-loss limit
with its session still confirmed; processing the first next-day tick
clears the halt (trailing `checkDailyReset`) without touching the
session flag, and the very next tick opens an order — entry resumes
after a halt although the confirm operation never ran, refuting
"after any halt ... no entry until the session is explicitly
re-confirmed". -/
theorem C8_kill_switch_cex :
    rsHalted.halted = true ∧ rsHalted.haltReason = "daily_loss_limit" ∧
    rsHalted.sessionConfirmed = true ∧
    processRealTick rsHalted rtickGood "2026-02-04" none = rsCleared ∧
    rsCleared.sessionConfirmed = true ∧ rsCleared.halted = false ∧
    (processRealTick rsCleared rtickGood "2026-02-04"
        (some "ord-4")).currentOrder =
      some { orderId := some "ord-4", side := Side.UP, entryPrice := 1/2,
             shares := 10, cost := 5, marketSlug := "window-x",
             aiConfidence := 90, martingaleLevel := 0 } := by
  refine ⟨rfl, rfl, rfl, ?_, rfl, rfl, ?_⟩
  · rfl
  · norm_num [processRealTick, phantomPhase, realSettlementPhase,
      realExpiryPhase, realEntryPhase, canTrade, checkDailyReset,
      enterTradeReal, getEffectiveMaxSpend, slugDiffers, rsCleared,
      rsHalted, rsOpen, rcfg, rordA, rstatsZ, rtickGood, min_def, max_def]
    rfl

/-- C8 (amended): the kill switch halts the engine with reason
`kill_switch`, revokes the session confirmation, requests venue-side
cancellation when the client is ready, and clears the local open order;
no tick can open an order while the session is unconfirmed, no tick
ever confirms the session, and only the explicit confirm operation sets
the flag — so the kill switch (and a restart, which starts unconfirmed)
requires explicit re-confirmation.  A daily-loss halt, however, is
cleared by `checkDailyReset` at the first next-day tick with the
pre-halt session confirmation left in force, so entry resumes there
with no re-confirmation. -/
theorem C8_kill_switch :
    (∀ r : RealState,
      (killSwitch r).state.halted = true ∧
      (killSwitch r).state.haltReason = "kill_switch" ∧
      (killSwitch r).state.sessionConfirmed = false ∧
      (killSwitch r).state.currentOrder = none ∧
      ((killSwitch r).cancelRequested = true ↔ r.clobReady = true)) ∧
    (∀ (r : RealState) (d : RealTickData) (today : String)
        (res : Option String),
      r.sessionConfirmed = false → r.currentOrder = none →
      (processRealTick r d today res).currentOrder = none) ∧
    (∀ (r : RealState) (d : RealTickData) (today : String)
        (res : Option String),
      (processRealTick r d today res).sessionConfirmed =
        r.sessionConfirmed) ∧
    (∀ r : RealState, r.config.enabled = true → r.clobReady = true →
      (confirmRealSession r).1.sessionConfirmed = true ∧
      (confirmRealSession r).2 = true) ∧
    (∀ (r : RealState) (today : String),
      r.haltReason = "daily_loss_limit" → r.dailyLossDate ≠ today →
      (checkDailyReset r today).halted = false ∧
      (checkDailyReset r today).dailyLoss = 0 ∧
      (checkDailyReset r today).sessionConfirmed = r.sessionConfirmed) := by
  refine ⟨?_, ?_, ?_, ?_, ?_⟩
  · intro r
    simp [killSwitch]
  · intro r d today res hconf hord
    exact processRealTick_blocked_order r d today res hord (Or.inl hconf)
  · intro r d today res
    simp only [processRealTick]
    split
    · exact (checkDailyReset_frame r today).2.1
    · rw [(checkDailyReset_frame _ _).2.1, realEntryPhase_sessionConfirmed,
        realExpiryPhase_sessionConfirmed, realSettlementPhase_sessionConfirmed]
      rcases hd : d.ptbDelta with _ | x <;>
        simp only [hd] <;> simp [phantomPhase_sessionConfirmed]
  · intro r h1 h2
    simp [confirmRealSession, h1, h2]
  · intro r today hreason hdate
    simp [checkDailyReset, hdate, hreason]

/-- Witness for C8: the kill switch applied to `rsOpen`, a blocked tick
at the unconfirmed state `rsUnconf`, session-flag invariance on that
tick, a successful confirm at `rsUnconf`, and the day rollover clearing
the daily-loss halt at `rsHalted` with the session flag untouched. -/
theorem C8_kill_switch_witness :
    (rsUnconf.sessionConfirmed = false ∧ rsUnconf.currentOrder = none ∧
     rsUnconf.config.enabled = true ∧ rsUnconf.clobReady = true ∧
     rsHalted.haltReason = "daily_loss_limit" ∧
     rsHalted.dailyLossDate ≠ "2026-02-04") ∧
    ((killSwitch rsOpen).state.halted = true ∧
     (killSwitch rsOpen).state.haltReason = "kill_switch" ∧
     (killSwitch rsOpen).state.sessionConfirmed = false ∧
     (killSwitch rsOpen).state.currentOrder = none ∧
     ((killSwitch rsOpen).cancelRequested = true ↔
       rsOpen.clobReady = true)) ∧
    (processRealTick rsUnconf rtickGood "2026-02-03" (some "ord-3")).currentOrder
      = none ∧
    (processRealTick rsUnconf rtickGood "2026-02-03" (some "ord-3")).sessionConfirmed
      = rsUnconf.sessionConfirmed ∧
    ((confirmRealSession rsUnconf).1.sessionConfirmed = true ∧
     (confirmRealSession rsUnconf).2 = true) ∧
    ((checkDailyReset rsHalted "2026-02-04").halted = false ∧
     (checkDailyReset rsHalted "2026-02-04").dailyLoss = 0 ∧
     (checkDailyReset rsHalted "2026-02-04").sessionConfirmed =
       rsHalted.sessionConfirmed) :=
  ⟨⟨rfl, rfl, rfl, rfl, rfl, by decide⟩,
   C8_kill_switch.1 rsOpen,
   C8_kill_switch.2.1 rsUnconf rtickGood "2026-02-03" (some "ord-3") rfl rfl,
   C8_kill_switch.2.2.1 rsUnconf rtickGood "2026-02-03" (some "ord-3"),
   C8_kill_switch.2.2.2.1 rsUnconf rfl rfl,
   C8_kill_switch.2.2.2.2 rsHalted "2026-02-04" rfl (by decide)⟩

/-- C2: a tick whose market identifier differs from the open Position's
settles the Position from the last observed delta — WIN iff (UP and
delta > 0) or (DOWN and delta < 0), LOSS iff the side opposes the
delta's sign, VOID (UNKNOWN) iff the delta is unavailable or exactly 0 —
and the same resolution applies at time-expiry (time left ≤ 0.1) with a
non-zero tick delta. -/
theorem C2_settlement_resolution
    (s : PaperState) (t : Trade) (d : TickData)
    (hcur : s.currentTrade = some t) :
    (tickSlug d.poly ≠ "" → t.marketSlug ≠ "" →
     t.marketSlug ≠ tickSlug d.poly →
      ∃ st : SettledTrade,
        (processTick s d).history = s.history ++ [st] ∧ st.trade = t ∧
        (st.outcome = Outcome.WIN ↔ ∃ x : ℚ, effDelta s d = some x ∧
          ((t.side = Side.UP ∧ 0 < x) ∨ (t.side = Side.DOWN ∧ x < 0))) ∧
        (st.outcome = Outcome.LOSS ↔ ∃ x : ℚ, effDelta s d = some x ∧
          ((t.side = Side.UP ∧ x < 0) ∨ (t.side = Side.DOWN ∧ 0 < x))) ∧
        (st.outcome = Outcome.UNKNOWN ↔
          (effDelta s d = none ∨ effDelta s d = some 0))) ∧
    (∀ tl x : ℚ, t.marketSlug = tickSlug d.poly → d.timeLeft = some tl →
      tl ≤ 1/10 → d.ptbDelta = some x → x ≠ 0 →
      ∃ st : SettledTrade,
        (processTick s d).history = s.history ++ [st] ∧ st.trade = t ∧
        (st.outcome = Outcome.WIN ↔
          ((t.side = Side.UP ∧ 0 < x) ∨ (t.side = Side.DOWN ∧ x < 0))) ∧
        (st.outcome = Outcome.LOSS ↔
          ((t.side = Side.UP ∧ x < 0) ∨ (t.side = Side.DOWN ∧ 0 < x)))) := by
  constructor
  · intro h1 h2 h3
    rcases hd : d.ptbDelta with _ | x
    · have hpt : processTick s d =
          entryPhase (expiryPhase (settlementPhase s d) d) d := by
        simp only [processTick, hd]
      obtain ⟨o, ho, hh, hnone, -, -, -, -⟩ :=
        settlementPhase_rollover s t d hcur h1 h2 h3
      have heff : effDelta s d = s.lastPtbDelta := by simp [effDelta, hd]
      obtain ⟨hw, hl, hu⟩ := outcomeSpec t.side o (effDelta s d)
        (by rw [heff]; exact ho)
      obtain ⟨hh2, -, -, -, -, -⟩ := settleTrade_parts s t hcur o
      refine ⟨settledRecord s t o, ?_, rfl, hw, hl, hu⟩
      rw [hpt, (entryPhase_frame _ _).1, expiryPhase_of_none _ _ hnone]
      exact hh.trans hh2
    · have hpt : processTick s d =
          entryPhase (expiryPhase (settlementPhase
            { s with lastPtbDelta := some x } d) d) d := by
        simp only [processTick, hd]
      have hcur' : ({ s with lastPtbDelta := some x } :
          PaperState).currentTrade = some t := hcur
      obtain ⟨o, ho, hh, hnone, -, -, -, -⟩ :=
        settlementPhase_rollover { s with lastPtbDelta := some x } t d
          hcur' h1 h2 h3
      have heff : effDelta s d = some x := by simp [effDelta, hd]
      obtain ⟨hw, hl, hu⟩ := outcomeSpec t.side o (effDelta s d)
        (by rw [heff]; exact ho)
      obtain ⟨hh2, -, -, -, -, -⟩ :=
        settleTrade_parts { s with lastPtbDelta := some x } t hcur' o
      refine ⟨settledRecord { s with lastPtbDelta := some x } t o,
              ?_, rfl, hw, hl, hu⟩
      rw [hpt, (entryPhase_frame _ _).1, expiryPhase_of_none _ _ hnone]
      exact hh.trans hh2
  · intro tl x h0 htl hle hpd hxne
    rcases hd : d.ptbDelta with _ | y
    · rw [hd] at hpd; exact absurd hpd (by simp)
    · rw [hd] at hpd
      obtain rfl : y = x := Option.some.inj hpd
      have hpt : processTick s d =
          entryPhase (expiryPhase (settlementPhase
            { s with lastPtbDelta := some y } d) d) d := by
        simp only [processTick, hd]
      have hcur' : ({ s with lastPtbDelta := some y } :
          PaperState).currentTrade = some t := hcur
      have hsame : settlementPhase { s with lastPtbDelta := some y } d =
          { s with lastPtbDelta := some y } :=
        settlementPhase_same_slug _ t d hcur' h0
      have hfire : expiryPhase { s with lastPtbDelta := some y } d =
          settleTrade { s with lastPtbDelta := some y }
            (resolveOutcome t.side y) :=
        expiryPhase_fires _ t d tl y hcur' htl hd hle hxne
      obtain ⟨hw, hl, -⟩ := resolveOutcome_cases t.side y hxne
      obtain ⟨hh2, -, -, -, -, -⟩ :=
        settleTrade_parts { s with lastPtbDelta := some y } t hcur'
          (resolveOutcome t.side y)
      refine ⟨settledRecord { s with lastPtbDelta := some y } t
                (resolveOutcome t.side y), ?_, rfl, hw, hl⟩
      rw [hpt, (entryPhase_frame _ _).1, hsame, hfire]
      exact hh2

/-- Witness for C2: the rollover tick `tickRoll` (market `window-b`,
delta +5) settles the open `window-a` trade of `psOpen`. -/
theorem C2_settlement_resolution_witness :
    (psOpen.currentTrade = some tradeA ∧
     tickSlug tickRoll.poly ≠ "" ∧ tradeA.marketSlug ≠ "" ∧
     tradeA.marketSlug ≠ tickSlug tickRoll.poly) ∧
    (∃ st : SettledTrade,
      (processTick psOpen tickRoll).history = psOpen.history ++ [st] ∧
      st.trade = tradeA ∧
      (st.outcome = Outcome.WIN ↔ ∃ x : ℚ,
        effDelta psOpen tickRoll = some x ∧
        ((tradeA.side = Side.UP ∧ 0 < x) ∨
         (tradeA.side = Side.DOWN ∧ x < 0))) ∧
      (st.outcome = Outcome.LOSS ↔ ∃ x : ℚ,
        effDelta psOpen tickRoll = some x ∧
        ((tradeA.side = Side.UP ∧ x < 0) ∨
         (tradeA.side = Side.DOWN ∧ 0 < x))) ∧
      (st.outcome = Outcome.UNKNOWN ↔
        (effDelta psOpen tickRoll = none ∨
         effDelta psOpen tickRoll = some 0))) := by
  have h1 : tickSlug tickRoll.poly ≠ "" := by simp [tickSlug, tickRoll]
  have h2 : tradeA.marketSlug ≠ "" := by simp [tradeA]
  have h3 : tradeA.marketSlug ≠ tickSlug tickRoll.poly := by
    simp [tradeA, tickSlug, tickRoll]
  exact ⟨⟨rfl, h1, h2, h3⟩,
    (C2_settlement_resolution psOpen tradeA tickRoll rfl).1 h1 h2 h3⟩

/-- C9 (code bug): at the window rollover from `window-a` to
`window-b`, the settled trade belongs to `window-a`, but the engine
stores `window-b` — the incoming tick's identifier — as the last
settled market identifier, because `settleTrade` nulls `currentTrade`
before `state.currentTrade?.marketSlug ?? marketSlug` is read. -/
theorem C9_lastSettledSlug_bug :
    psOpen.currentTrade = some tradeA ∧ tradeA.marketSlug = "window-a" ∧
    tickSlug tickRoll.poly = "window-b" ∧
    (∃ st : SettledTrade,
      (processTick psOpen tickRoll).history = psOpen.history ++ [st] ∧
      st.trade = tradeA ∧ st.outcome = Outcome.WIN) ∧
    (processTick psOpen tickRoll).lastSettledSlug = some "window-b" ∧
    some "window-b" ≠ some tradeA.marketSlug := by
  have h1 : tickSlug tickRoll.poly ≠ "" := by simp [tickSlug, tickRoll]
  have h2 : tradeA.marketSlug ≠ "" := by simp [tradeA]
  have h3 : tradeA.marketSlug ≠ tickSlug tickRoll.poly := by
    simp [tradeA, tickSlug, tickRoll]
  have hpt : processTick psOpen tickRoll =
      entryPhase (expiryPhase (settlementPhase
        { psOpen with lastPtbDelta := some 5 } tickRoll) tickRoll)
        tickRoll := rfl
  have hcur' : ({ psOpen with lastPtbDelta := some 5 } :
      PaperState).currentTrade = some tradeA := rfl
  obtain ⟨o, ho, hh, hnone, hslug, -, -, -⟩ :=
    settlementPhase_rollover { psOpen with lastPtbDelta := some 5 }
      tradeA tickRoll hcur' h1 h2 h3
  obtain ⟨hh2, -, -, -, -, -⟩ := settleTrade_parts _ tradeA hcur' o
  have hwin : o = Outcome.WIN := by
    rw [ho]
    norm_num [resolveOutcome, tradeA]
  refine ⟨rfl, rfl, rfl,
    ⟨settledRecord { psOpen with lastPtbDelta := some 5 } tradeA o,
      ?_, rfl, hwin⟩, ?_, ?_⟩
  · rw [hpt, (entryPhase_frame _ _).1, expiryPhase_of_none _ _ hnone]
    exact hh.trans hh2
  · rw [hpt, (entryPhase_frame _ _).2.1, expiryPhase_of_none _ _ hnone,
      hslug]
    rfl
  · simp [tradeA]

/-- C3 counterexample: the claim "both market prices are strictly
inside (0,1)" fails — on `tickBadDown` the DOWN price is 3/2, yet the
engine opens the UP position, because the code only range-checks the
chosen side's price. -/
theorem C3_entry_conditions_cex :
    psIdle.currentTrade = none ∧
    (processTick psIdle tickBadDown).currentTrade.isSome = true ∧
    (∃ poly : PolyInput, tickBadDown.poly = some poly ∧
      poly.downPrice = some (3/2)) ∧
    ¬ (0 < (3/2 : ℚ) ∧ (3/2 : ℚ) < 1) := by
  refine ⟨rfl, ?_, ⟨_, rfl, rfl⟩, by norm_num⟩
  rw [eval_entry_badDown]
  rfl

/-- C3 (amended): a new Position is opened only if: no Position is
open; the capital guard is clear (paper: drawdown below the halt
threshold; real: `canTrade` passes); the direction is UP or DOWN with
confidence at or above the threshold; time remaining lies in the
configured band; the incoming identifier is non-empty and differs from
the last settled one; both market prices are present; and the *chosen
side's* price is strictly inside (0,1) (the real variant additionally
requires a token id). -/
theorem C3_entry_conditions
    (s : PaperState) (d : TickData) (t : Trade)
    (r : RealState) (rd : RealTickData) (today : String)
    (res : Option String) (u : RealOrder)
    (hidle : s.currentTrade = none)
    (hentry : (processTick s d).currentTrade = some t)
    (hridle : r.currentOrder = none)
    (hrentry : (processRealTick r rd today res).currentOrder = some u) :
    (∃ (ai : AiInput) (analysis : Analysis) (poly : PolyInput),
      d.ai = some ai ∧ ai.analysis = some analysis ∧ d.poly = some poly ∧
      ai.enabled = true ∧ poly.ok = true ∧
      (s.config.initialBalance - s.balance) / s.config.initialBalance <
        (if s.config.maxDrawdownHalt = 0 then 3/20
         else s.config.maxDrawdownHalt) ∧
      (analysis.direction = Direction.UP ∨
       analysis.direction = Direction.DOWN) ∧
      analysis.confidence.getD 0 ≥ s.config.minAiConfidence ∧
      (∃ tl : ℚ, d.timeLeft = some tl ∧ s.config.minEntryTimeLeft ≤ tl ∧
        tl ≤ s.config.maxEntryTimeLeft) ∧
      poly.slug ≠ "" ∧ slugDiffers poly.slug s.lastSettledSlug = true ∧
      poly.upPrice.isSome = true ∧ poly.downPrice.isSome = true ∧
      (∃ p : ℚ, (if analysis.direction = Direction.UP then poly.upPrice
                 else poly.downPrice) = some p ∧ 0 < p ∧ p < 1)) ∧
    (r.config.enabled = true ∧
     ∃ (ai : AiInput) (analysis : Analysis) (poly : PolyInput) (tk : Tokens),
      rd.ai = some ai ∧ ai.analysis = some analysis ∧ rd.poly = some poly ∧
      rd.tokens = some tk ∧ ai.enabled = true ∧ poly.ok = true ∧
      (canTrade r today).1 = true ∧
      (analysis.direction = Direction.UP ∨
       analysis.direction = Direction.DOWN) ∧
      analysis.confidence.getD 0 ≥ r.config.minConfidence ∧
      (∃ tl : ℚ, rd.timeLeft = some tl ∧ 2 ≤ tl ∧ tl ≤ 13) ∧
      poly.slug ≠ "" ∧ slugDiffers poly.slug r.lastSettledSlug = true ∧
      poly.upPrice.isSome = true ∧ poly.downPrice.isSome = true ∧
      (∃ p : ℚ, (if analysis.direction = Direction.UP then poly.upPrice
                 else poly.downPrice) = some p ∧ 0 < p ∧ p < 1) ∧
      (if analysis.direction = Direction.UP then tk.upTokenId
       else tk.downTokenId).isSome = true) := by
  constructor
  · rw [processTick_of_idle s d hidle] at hentry
    rcases hd : d.ptbDelta with _ | x <;> simp only [hd] at hentry
    · exact entryPhase_inversion s d t hidle hentry
    · exact entryPhase_inversion { s with lastPtbDelta := some x } d t
        hidle hentry
  · by_cases henab : r.config.enabled = false
    · exfalso
      simp only [processRealTick, if_pos henab] at hrentry
      rw [(checkDailyReset_frame r today).1, hridle] at hrentry
      exact absurd hrentry (by simp)
    · have hen : r.config.enabled = true := by
        revert henab
        cases r.config.enabled <;> simp
      refine ⟨hen, ?_⟩
      simp only [processRealTick] at hrentry
      rw [if_neg henab, phantomPhase_of_none r hridle] at hrentry
      rcases hd : rd.ptbDelta with _ | x <;> simp only [hd] at hrentry
      · rw [realSettlementPhase_of_none r rd hridle,
          realExpiryPhase_of_none r rd hridle,
          (checkDailyReset_frame _ _).1] at hrentry
        exact realEntryPhase_inversion r rd today res u hridle hrentry
      · have hridle1 : ({ r with lastPtbDelta := some x } :
            RealState).currentOrder = none := hridle
        rw [realSettlementPhase_of_none _ rd hridle1,
          realExpiryPhase_of_none _ rd hridle1,
          (checkDailyReset_frame _ _).1] at hrentry
        obtain ⟨ai, analysis, poly, tk, h1, h2, h3, h4, h5, h6, hok, hdir,
          hconf, htlp, hs1, hs2, hu1, hu2, hp, htk⟩ :=
          realEntryPhase_inversion _ rd today res u hridle1 hrentry
        rw [canTrade_ok_lastPtbDelta r (some x) today] at hok
        exact ⟨ai, analysis, poly, tk, h1, h2, h3, h4, h5, h6, hok, hdir,
          hconf, htlp, hs1, hs2, hu1, hu2, hp, htk⟩

/-- Witness for the amended C3 at the concrete entries of
`eval_entry_badDown` and `eval_entry_real`. -/
theorem C3_entry_conditions_witness :
    (psIdle.currentTrade = none ∧
     (processTick psIdle tickBadDown).currentTrade.isSome = true ∧
     rsIdle.currentOrder = none ∧
     (processRealTick rsIdle rtickGood "2026-02-03"
       (some "ord-9")).currentOrder.isSome = true) ∧
    ((∃ (ai : AiInput) (analysis : Analysis) (poly : PolyInput),
      tickBadDown.ai = some ai ∧ ai.analysis = some analysis ∧
      tickBadDown.poly = some poly ∧
      ai.enabled = true ∧ poly.ok = true ∧
      (psIdle.config.initialBalance - psIdle.balance) /
          psIdle.config.initialBalance <
        (if psIdle.config.maxDrawdownHalt = 0 then 3/20
         else psIdle.config.maxDrawdownHalt) ∧
      (analysis.direction = Direction.UP ∨
       analysis.direction = Direction.DOWN) ∧
      analysis.confidence.getD 0 ≥ psIdle.config.minAiConfidence ∧
      (∃ tl : ℚ, tickBadDown.timeLeft = some tl ∧
        psIdle.config.minEntryTimeLeft ≤ tl ∧
        tl ≤ psIdle.config.maxEntryTimeLeft) ∧
      poly.slug ≠ "" ∧ slugDiffers poly.slug psIdle.lastSettledSlug = true ∧
      poly.upPrice.isSome = true ∧ poly.downPrice.isSome = true ∧
      (∃ p : ℚ, (if analysis.direction = Direction.UP then poly.upPrice
                 else poly.downPrice) = some p ∧ 0 < p ∧ p < 1)) ∧
    (rsIdle.config.enabled = true ∧
     ∃ (ai : AiInput) (analysis : Analysis) (poly : PolyInput) (tk : Tokens),
      rtickGood.ai = some ai ∧ ai.analysis = some analysis ∧
      rtickGood.poly = some poly ∧
      rtickGood.tokens = some tk ∧ ai.enabled = true ∧ poly.ok = true ∧
      (canTrade rsIdle "2026-02-03").1 = true ∧
      (analysis.direction = Direction.UP ∨
       analysis.direction = Direction.DOWN) ∧
      analysis.confidence.getD 0 ≥ rsIdle.config.minConfidence ∧
      (∃ tl : ℚ, rtickGood.timeLeft = some tl ∧ 2 ≤ tl ∧ tl ≤ 13) ∧
      poly.slug ≠ "" ∧ slugDiffers poly.slug rsIdle.lastSettledSlug = true ∧
      poly.upPrice.isSome = true ∧ poly.downPrice.isSome = true ∧
      (∃ p : ℚ, (if analysis.direction = Direction.UP then poly.upPrice
                 else poly.downPrice) = some p ∧ 0 < p ∧ p < 1) ∧
      (if analysis.direction = Direction.UP then tk.upTokenId
       else tk.downTokenId).isSome = true)) := by
  refine ⟨⟨rfl, ?_, rfl, ?_⟩, ?_⟩
  · rw [eval_entry_badDown]; rfl
  · rw [eval_entry_real]; rfl
  · exact C3_entry_conditions psIdle tickBadDown
      { side := Side.UP, entryPrice := 1/2, shares := 6, cost := 3,
        marketSlug := "window-c", aiConfidence := 80,
        timeLeftAtEntry := some 5, martingaleLevel := 0,
        positionSizePct := 3/100 }
      rsIdle rtickGood "2026-02-03" (some "ord-9")
      { orderId := some "ord-9", side := Side.UP, entryPrice := 1/2,
        shares := 10, cost := 5, marketSlug := "window-x",
        aiConfidence := 90, martingaleLevel := 0 }
      rfl eval_entry_badDown rfl eval_entry_real

/-- C4 counterexample: at `psC4` the drawdown from the peak balance
(120 → 110) exceeds 5%, yet the entry records fraction 9/200 — the
martingale multiplier applied on top of the un-de-risked base — not
the claimed de-risked fraction (the code measures drawdown from the
initial balance, and martingale multiplies rather than being
overridden). -/
theorem C4_derisked_sizing_cex :
    (psC4.stats.peakBalance - psC4.balance) / psC4.stats.peakBalance >
      1/20 ∧
    (processTick psC4 tickC4).currentTrade.isSome = true ∧
    ((processTick psC4 tickC4).currentTrade.map Trade.positionSizePct) =
      some (9/200) ∧
    (9/200 : ℚ) ≠ max (1/100)
      (psC4.config.positionSizePct *
        (1 - (psC4.stats.peakBalance - psC4.balance) /
          psC4.stats.peakBalance)) := by
  refine ⟨by norm_num [psC4, statsC4], ?_, ?_, ?_⟩
  · rw [eval_entry_mg]; rfl
  · rw [eval_entry_mg]; rfl
  · norm_num [psC4, cfgM4, cfgD, statsC4, max_def]

/-- C4 (amended): the base fraction for an entry is the configured
fraction, replaced by max(0.01, fraction × (1 − drawdown)) once the
drawdown from the *initial balance* exceeds 0.05; with martingale
enabled the recorded fraction is min(base × multiplier^min(level,
maxLevel), maxPositionPct) — the martingale multiplier applies on top
of the de-risked base rather than being overridden by it. -/
theorem C4_derisked_sizing
    (s : PaperState) (d : TickData) (t : Trade)
    (hidle : s.currentTrade = none)
    (hentry : (processTick s d).currentTrade = some t) :
    t.positionSizePct =
      (if s.config.martingale.enabled = true then
        min ((if (s.config.initialBalance - s.balance) /
                  s.config.initialBalance > 1/20 then
                max (1/100) (s.config.positionSizePct *
                  (1 - (s.config.initialBalance - s.balance) /
                    s.config.initialBalance))
              else s.config.positionSizePct) *
              s.config.martingale.multiplier ^
                (min s.martingaleLevel s.config.martingale.maxLevel))
            s.config.martingale.maxPositionPct
      else
        (if (s.config.initialBalance - s.balance) /
              s.config.initialBalance > 1/20 then
           max (1/100) (s.config.positionSizePct *
             (1 - (s.config.initialBalance - s.balance) /
               s.config.initialBalance))
         else s.config.positionSizePct)) := by
  rw [processTick_of_idle s d hidle] at hentry
  rcases hd : d.ptbDelta with _ | x <;> simp only [hd] at hentry
  · exact entryPhase_sizing s d t hidle hentry
  · exact entryPhase_sizing { s with lastPtbDelta := some x } d t
      hidle hentry

/-- Witness for the amended C4 at the concrete entry of
`eval_entry_mg`. -/
theorem C4_derisked_sizing_witness :
    (psC4.currentTrade = none ∧
     (processTick psC4 tickC4).currentTrade = some tradeC4) ∧
    tradeC4.positionSizePct =
      (if psC4.config.martingale.enabled = true then
        min ((if (psC4.config.initialBalance - psC4.balance) /
                  psC4.config.initialBalance > 1/20 then
                max (1/100) (psC4.config.positionSizePct *
                  (1 - (psC4.config.initialBalance - psC4.balance) /
                    psC4.config.initialBalance))
              else psC4.config.positionSizePct) *
              psC4.config.martingale.multiplier ^
                (min psC4.martingaleLevel psC4.config.martingale.maxLevel))
            psC4.config.martingale.maxPositionPct
      else
        (if (psC4.config.initialBalance - psC4.balance) /
              psC4.config.initialBalance > 1/20 then
           max (1/100) (psC4.config.positionSizePct *
             (1 - (psC4.config.initialBalance - psC4.balance) /
               psC4.config.initialBalance))
         else psC4.config.positionSizePct)) :=
  ⟨⟨rfl, eval_entry_mg⟩,
   C4_derisked_sizing psC4 tickC4 tradeC4 rfl eval_entry_mg⟩

/-- C6 counterexample: with threshold 90 (reached through the
band-capped raises) and a recent win rate of 2/5, the controller sets
the threshold to min(88, 93) = 88 — it *lowers* the threshold although
the win rate does not exceed the high band. -/
theorem C6_adaptive_threshold_cex :
    ps6.config.minAiConfidence = 90 ∧
    ((sliceLast ps6.config.learningWindow ps6.history).filter
      isDecided).length = 5 ∧
    (adjustLearning ps6).config.minAiConfidence = 88 ∧
    (88 : ℚ) < 90 ∧ ¬ ((2 : ℚ)/5 > 13/20) := by
  refine ⟨rfl, by decide, ?_, by norm_num, by norm_num⟩
  norm_num [adjustLearning, sliceLast, isDecided, ps6, cfg90, cfgD,
    mkSettled, tradeA, statsZ, min_def, max_def, List.filter,
    show (Outcome.LOSS == Outcome.WIN) = false from rfl,
    show (Outcome.WIN == Outcome.WIN) = true from rfl,
    show (Outcome.LOSS == Outcome.LOSS) = true from rfl]

/-- C6 (amended): the controller acts only with at least 5 recent
settled trades; it then sets the threshold to min(cap, old + step)
with larger steps and caps for lower win-rate bands (92/+8 below 30%,
90/+5 below 40%, 88/+3 below 50%), relaxes by 2 only above 65%, clamps
the result to at least 65, raises strictly whenever the win rate is
below 50% and the old threshold is at most 80, and leaves a mid-band
threshold of at least 65 unchanged — but a raise branch can lower a
threshold already above its band cap. -/
theorem C6_adaptive_threshold (s : PaperState) :
    ((((sliceLast s.config.learningWindow s.history).filter
        isDecided).length < 5 → adjustLearning s = s) ∧
    (¬ (((sliceLast s.config.learningWindow s.history).filter
        isDecided).length < 5) →
      (adjustLearning s).config.minAiConfidence =
        max (if ((((sliceLast s.config.learningWindow s.history).filter
                isDecided).filter
                (fun t => t.outcome == Outcome.WIN)).length : ℚ) /
              ((((sliceLast s.config.learningWindow s.history).filter
                isDecided)).length : ℚ) < 3/10 then
              min 92 (s.config.minAiConfidence + 8)
            else if ((((sliceLast s.config.learningWindow s.history).filter
                isDecided).filter
                (fun t => t.outcome == Outcome.WIN)).length : ℚ) /
              ((((sliceLast s.config.learningWindow s.history).filter
                isDecided)).length : ℚ) < 2/5 then
              min 90 (s.config.minAiConfidence + 5)
            else if ((((sliceLast s.config.learningWindow s.history).filter
                isDecided).filter
                (fun t => t.outcome == Outcome.WIN)).length : ℚ) /
              ((((sliceLast s.config.learningWindow s.history).filter
                isDecided)).length : ℚ) < 1/2 then
              min 88 (s.config.minAiConfidence + 3)
            else if ((((sliceLast s.config.learningWindow s.history).filter
                isDecided).filter
                (fun t => t.outcome == Outcome.WIN)).length : ℚ) /
              ((((sliceLast s.config.learningWindow s.history).filter
                isDecided)).length : ℚ) > 13/20 then
              max 65 (s.config.minAiConfidence - 2)
            else s.config.minAiConfidence) 65 ∧
      (adjustLearning s).config.minAiConfidence ≥ 65 ∧
      (((((sliceLast s.config.learningWindow s.history).filter
            isDecided).filter
            (fun t => t.outcome == Outcome.WIN)).length : ℚ) /
          ((((sliceLast s.config.learningWindow s.history).filter
            isDecided)).length : ℚ) < 1/2 →
        s.config.minAiConfidence ≤ 80 →
        (adjustLearning s).config.minAiConfidence >
          s.config.minAiConfidence) ∧
      (¬ ((((sliceLast s.config.learningWindow s.history).filter
            isDecided).filter
            (fun t => t.outcome == Outcome.WIN)).length : ℚ) /
          ((((sliceLast s.config.learningWindow s.history).filter
            isDecided)).length : ℚ) < 1/2 →
       ¬ ((((sliceLast s.config.learningWindow s.history).filter
            isDecided).filter
            (fun t => t.outcome == Outcome.WIN)).length : ℚ) /
          ((((sliceLast s.config.learningWindow s.history).filter
            isDecided)).length : ℚ) > 13/20 →
        65 ≤ s.config.minAiConfidence →
        (adjustLearning s).config.minAiConfidence =
          s.config.minAiConfidence))) := by
  constructor
  · intro h
    simp only [adjustLearning]
    rw [if_pos h]
  · intro h
    simp only [adjustLearning]
    rw [if_neg h]
    refine ⟨rfl, le_max_right _ _, ?_, ?_⟩
    · intro hwr hold
      split_ifs with h1 h2
      · rw [min_eq_right (by linarith)]
        exact lt_of_lt_of_le (by linarith) (le_max_left _ _)
      · rw [min_eq_right (by linarith)]
        exact lt_of_lt_of_le (by linarith) (le_max_left _ _)
      · rw [min_eq_right (by linarith)]
        exact lt_of_lt_of_le (by linarith) (le_max_left _ _)
    · intro hwr1 hwr2 hold
      split_ifs with h1 h2
      · exact absurd h1 (by linarith)
      · exact absurd h2 (by linarith)
      · exact max_eq_left hold

/-- Witness for C6: `ps6` has exactly 5 decided recent trades, so the
controller acts, and the resulting threshold is at least 65. -/
theorem C6_adaptive_threshold_witness :
    ¬ (((sliceLast ps6.config.learningWindow ps6.history).filter
        isDecided).length < 5) ∧
    (adjustLearning ps6).config.minAiConfidence ≥ 65 :=
  ⟨by decide, ((C6_adaptive_threshold ps6).2 (by decide)).2.1⟩

end PolyBtc
